import Mathlib

/-! Oat: consume steps, run loops, node protocol and shared-memory client.

A shallow embedding of the parts of the Oat sources that the dataflow
contracts talk about:

* the consume step of the components (`Calibrator::process`,
  `Viewer::showImage`, `PositionSocket::process`);
* the run loops and the exit paths of the component main programs;
* the synchronization node of the specification;
* the shared-memory client `SMClient`.
-/

namespace Oat

/-! ## Component consume steps -/

/-- Modelled from the spec: the node states of the shared-memory dataflow library
(its header is not among the sources); the spec lists
`state ∈ {UNDEFINED, SINK_BOUND, SINK_PRESENT, END}`. -/
inductive NodeState
  | UNDEFINED
  | SINK_BOUND
  | SINK_PRESENT
  | END
  deriving DecidableEq, Repr

/-- The calls a consume step makes on its source and on its downstream
collaborators, in program order. -/
inductive Action
  | wait
  | copyTo
  | clone
  | post
  | calibrate
  | imshow
  | waitKey
  | imwrite
  | sendPosition
  deriving DecidableEq, Repr

/-- What a component sees of its source during one step: the state the next
`wait()` returns and the shared payload a copy-out reads. -/
structure Source (α : Type) where
  wait_result : NodeState
  shared : α

/-- The members of `Calibrator` that `process` touches. -/
structure Calibrator (α : Type) where
  node_state_ : NodeState
  internal_frame_ : α

/-- `Calibrator::process` (Calibrator.cpp): returns the end-of-stream flag, the
updated component and the calls made. -/
def Calibrator.process {α : Type} (c : Calibrator α) (frame_source_ : Source α) :
    Bool × Calibrator α × List Action :=
  -- node_state_ = frame_source_.wait();
  let c := { c with node_state_ := frame_source_.wait_result }
  if c.node_state_ = NodeState.END then
    (true, c, [Action.wait])
  else
    -- frame_source_.copyTo(internal_frame_);
    let c := { c with internal_frame_ := frame_source_.shared }
    -- frame_source_.post(); calibrate(internal_frame_);
    (false, c, [Action.wait, Action.copyTo, Action.post, Action.calibrate])

/-- The members of `PositionSocket` that `process` touches. -/
structure PositionSocket (α : Type) where
  node_state_ : NodeState
  internal_position_ : α

/-- `PositionSocket::process` (PositionSocket.cpp). -/
def PositionSocket.process {α : Type} (p : PositionSocket α) (position_source_ : Source α) :
    Bool × PositionSocket α × List Action :=
  -- node_state_ = position_source_.wait();
  let p := { p with node_state_ := position_source_.wait_result }
  if p.node_state_ = NodeState.END then
    (true, p, [Action.wait])
  else
    -- internal_position_ = position_source_.clone();
    let p := { p with internal_position_ := position_source_.shared }
    -- position_source_.post(); sendPosition(internal_position_);
    (false, p, [Action.wait, Action.clone, Action.post, Action.sendPosition])

/-- The members of `Viewer` that `showImage` touches; times are in milliseconds. -/
structure Viewer (α : Type) where
  node_state_ : NodeState
  internal_frame_ : α
  tick_ : Int
  tock_ : Int

/-- `Viewer::showImage` (Viewer.cpp). `MIN_UPDATE_PERIOD_MS` is declared in the
header, which is not among the sources, and is a parameter; `now1` and `now2`
are what the two `Clock::now()` calls return and `command` what `cv::waitKey(1)`
returns. -/
def Viewer.showImage {α : Type} (MIN_UPDATE_PERIOD_MS : Int) (v : Viewer α)
    (frame_source_ : Source α) (now1 now2 : Int) (command : Char) :
    Bool × Viewer α × List Action :=
  -- node_state_ = frame_source_.wait();
  let v := { v with node_state_ := frame_source_.wait_result }
  if v.node_state_ = NodeState.END then
    (true, v, [Action.wait])
  else
    -- frame_source_.copyTo(internal_frame_); frame_source_.post();
    let v := { v with internal_frame_ := frame_source_.shared }
    -- tick_ = Clock::now();
    let v := { v with tick_ := now1 }
    let duration := v.tick_ - v.tock_
    if duration > MIN_UPDATE_PERIOD_MS then
      -- cv::imshow(name_, internal_frame_); tock_ = Clock::now();
      let v := { v with tock_ := now2 }
      if command = 's' then
        (false, v, [Action.wait, Action.copyTo, Action.post, Action.imshow, Action.waitKey,
          Action.imwrite])
      else
        (false, v, [Action.wait, Action.copyTo, Action.post, Action.imshow, Action.waitKey])
    else
      (false, v, [Action.wait, Action.copyTo, Action.post])

/-- An action that copies the shared payload out of the node. -/
def Action.isCopy : Action → Bool
  | Action.copyTo => true
  | Action.clone => true
  | _ => false

/-- An action of the wait/copy/post handshake with the source. -/
def Action.isHandshake (a : Action) : Bool :=
  a.isCopy || a == Action.wait || a == Action.post

/-- The calls are one `wait`, then one copy-out, then one `post`, then calls
that touch the source no more. -/
def CopyThenPost (acts : List Action) : Prop :=
  ∃ cp rest, acts = Action.wait :: cp :: Action.post :: rest ∧ cp.isCopy = true ∧
    ∀ a ∈ rest, a.isHandshake = false

/-- The calls contain neither a copy-out nor a `post`. -/
def NoCopyNoPost (acts : List Action) : Prop :=
  ∀ a ∈ acts, a.isCopy = false ∧ a ≠ Action.post

/-- Downstream work of the components: `calibrate`, `imshow`, `sendPosition`. -/
def Action.isDownstream : Action → Bool
  | Action.calibrate => true
  | Action.imshow => true
  | Action.sendPosition => true
  | _ => false

/-! ## Run loops and exit paths of the main programs -/

/-- The exceptions the handlers of the main programs tell apart. -/
inductive Exn
  /-- `boost::interprocess::interprocess_exception` with its `get_error_code()`. -/
  | interprocess (error_code : Int)
  /-- `std::runtime_error`. -/
  | runtime_error
  /-- `cv::Exception`. -/
  | cv
  /-- `cpptoml::parse_exception`. -/
  | parse
  /-- `boost::program_options::error`. -/
  | po
  /-- Anything else, caught by `catch (...)`. -/
  | unknown
  deriving DecidableEq, Repr

/-- What one call of a step does: it returns a value or it throws. -/
inductive StepOutcome (ρ : Type)
  | returns (r : ρ)
  | throws (e : Exn)
  deriving DecidableEq, Repr

/-- One round of the environment of a run loop: whether a SIGINT is delivered
(the handler `sigHandler` runs `quit = 1`) before the loop condition is next
evaluated, and what the step does if the loop calls it. -/
structure Tick (ρ : Type) where
  sigint : Bool
  step : StepOutcome ρ

/-- How a run loop ends on a finite environment script. -/
inductive LoopEnd
  /-- The loop condition became false. -/
  | done
  /-- An exception left the loop. -/
  | threw (e : Exn)
  /-- The script is used up and the loop would go on. -/
  | more
  deriving DecidableEq, Repr

/-- The end of a loop and the calls it made to its step, in order. -/
structure LoopResult (ρ : Type) where
  outcome : LoopEnd
  calls : List (StepOutcome ρ)

/-- The loop `while (!quit && !source_eof) { source_eof = step(); }` that the
`run` functions of calibrator, framefilter and recorder share, on the two
`sig_atomic_t` flags. -/
def processLoop : (quit source_eof : Nat) → List (Tick Bool) → LoopResult Bool
  | quit, source_eof, [] =>
    ⟨if quit = 0 ∧ source_eof = 0 then LoopEnd.more else LoopEnd.done, []⟩
  | quit, source_eof, t :: ts =>
    let quit := if t.sigint then 1 else quit
    if quit = 0 ∧ source_eof = 0 then
      match t.step with
      | StepOutcome.returns b =>
        let r := processLoop quit (if b then 1 else 0) ts
        ⟨r.outcome, StepOutcome.returns b :: r.calls⟩
      | StepOutcome.throws e => ⟨LoopEnd.threw e, [StepOutcome.throws e]⟩
    else
      ⟨LoopEnd.done, []⟩

/-- The handler of the `run` functions of framefilter and recorder:
`catch (interprocess_exception) { if (ex.get_error_code() != 1) throw; }`. -/
def catchInterrupt (r : LoopResult Bool) : LoopResult Bool :=
  match r.outcome with
  | LoopEnd.threw (Exn.interprocess code) =>
    if code ≠ 1 then r else ⟨LoopEnd.done, r.calls⟩
  | _ => r

/-- `run` of calibrator/main.cpp: the loop, with no handler around it. -/
def calibrator_run (quit source_eof : Nat) (script : List (Tick Bool)) : LoopResult Bool :=
  processLoop quit source_eof script

/-- `run` of framefilter/main.cpp: `connectToNode()` then the loop, inside the
handler. `connect` is the exception `connectToNode()` throws, if any. -/
def framefilter_run (connect : Option Exn) (quit source_eof : Nat)
    (script : List (Tick Bool)) : LoopResult Bool :=
  catchInterrupt <|
    match connect with
    | some e => ⟨LoopEnd.threw e, []⟩
    | none => processLoop quit source_eof script

/-- `run` of recorder/main.cpp: `connectToNodes()`, `initializeRecording(...)`,
then the loop, inside the handler. -/
def recorder_run (connect init_recording : Option Exn) (quit source_eof : Nat)
    (script : List (Tick Bool)) : LoopResult Bool :=
  catchInterrupt <|
    match connect with
    | some e => ⟨LoopEnd.threw e, []⟩
    | none =>
      match init_recording with
      | some e => ⟨LoopEnd.threw e, []⟩
      | none => processLoop quit source_eof script

/-- `run` of frameviewer/main.cpp:
`while ((viewer->showImage() != oat::ServerRunState::END) && !quit) { }`.
The run-state type is declared in a header that is not among the sources: it
is the parameter `σ` with its value `END`. -/
def viewer_run {σ : Type} [DecidableEq σ] (END : σ) : (quit : Nat) → List (Tick σ) →
    LoopResult σ
  | _, [] => ⟨LoopEnd.more, []⟩
  | quit, t :: ts =>
    let quit := if t.sigint then 1 else quit
    match t.step with
    | StepOutcome.throws e => ⟨LoopEnd.threw e, [StepOutcome.throws e]⟩
    | StepOutcome.returns s =>
      if s ≠ END ∧ quit = 0 then
        let r := viewer_run END quit ts
        ⟨r.outcome, StepOutcome.returns s :: r.calls⟩
      else
        ⟨LoopEnd.done, [StepOutcome.returns s]⟩

/-- How a main program ends. -/
inductive Finish
  /-- `main` returned this status. -/
  | returned (status : Int)
  /-- `std::terminate`: an exception left a thread function, or nothing caught it. -/
  | terminated
  /-- The script is used up while the run loop goes on. -/
  | running
  deriving DecidableEq, Repr

/-- The end of a main program: how it finished, whether one of its error
handlers printed a diagnostic, and the calls its run loop made. -/
structure MainResult where
  finish : Finish
  diagnostic : Bool
  calls : List (StepOutcome Bool)

/-- The end of a `try { ...; run(...); return 0; } catch ... { } return -1;`
block whose handlers end in `catch (...)`, given how `run` ended. -/
def exitAfterRun (r : LoopResult Bool) : MainResult :=
  match r.outcome with
  | LoopEnd.done => ⟨Finish.returned 0, false, r.calls⟩
  | LoopEnd.threw _ => ⟨Finish.returned (-1), true, r.calls⟩
  | LoopEnd.more => ⟨Finish.running, false, r.calls⟩

/-- The statement `if (config_used) calibrator->configure(config_file, config_key);`
of calibrator/main.cpp: whether `configure` is called, and the exception that
leaves the statement, if any. `configure` is what the call throws when it is
made. -/
def calibrator_configure (config_used : Bool) (configure : Option Exn) : Bool × Option Exn :=
  if config_used then (true, configure) else (false, none)

/-- The last `try` block of `main` in calibrator/main.cpp, reached once the
options are parsed and the component is created: `configure` when a
configuration is used, `generateSavePath`, `run`, `return 0`; every handler
prints a diagnostic and falls through to `return -1`. `quit` is the flag at that
point; `source_eof` is still 0. -/
def calibrator_main_run (config_used : Bool) (configure generateSavePath : Option Exn)
    (quit : Nat) (script : List (Tick Bool)) : MainResult :=
  match (calibrator_configure config_used configure).2 with
  | some _ => ⟨Finish.returned (-1), true, []⟩
  | none =>
    match generateSavePath with
    | some _ => ⟨Finish.returned (-1), true, []⟩
    | none => exitAfterRun (calibrator_run quit 0 script)

/-- The end of the `try` block of `main` in framefilter/main.cpp, from
`if (config_used) filter->configure(...)` on. -/
def framefilter_main_run (config_used : Bool) (configure connect : Option Exn)
    (quit : Nat) (script : List (Tick Bool)) : MainResult :=
  match (if config_used then configure else none) with
  | some _ => ⟨Finish.returned (-1), true, []⟩
  | none => exitAfterRun (framefilter_run connect quit 0 script)

/-- `ControlMode` of recorder/main.cpp. -/
inductive ControlMode
  | NONE
  | LOCAL
  | RPC
  deriving DecidableEq, Repr

/-- The end of `main` when `run` was started as `std::thread process(run, ...)`
and joined by `cleanup(process)`: an exception that leaves `run` ends the
program through `std::terminate`; otherwise `main` returns `status`. -/
def exitAfterJoin (r : LoopResult Bool) (status : Int) (diagnostic : Bool) : MainResult :=
  match r.outcome with
  | LoopEnd.done => ⟨Finish.returned status, diagnostic, r.calls⟩
  | LoopEnd.threw _ => ⟨Finish.terminated, diagnostic, r.calls⟩
  | LoopEnd.more => ⟨Finish.running, diagnostic, r.calls⟩

/-- The last `try` block of `main` in recorder/main.cpp: the switch on
`control_mode`. Without controls `run` is called directly; under LOCAL and RPC
control it runs in a thread that `cleanup` joins after the control session.
`zmq_error` says whether the RPC session raises `zmq::error_t`, which its
handler answers with `cleanup(process); return -1;`. -/
def recorder_main_run (control_mode : ControlMode) (zmq_error : Bool)
    (connect init_recording : Option Exn) (quit : Nat) (script : List (Tick Bool)) : MainResult :=
  match control_mode with
  | ControlMode.NONE => exitAfterRun (recorder_run connect init_recording quit 0 script)
  | ControlMode.LOCAL => exitAfterJoin (recorder_run connect init_recording quit 0 script) 0 false
  | ControlMode.RPC =>
    if zmq_error then
      exitAfterJoin (recorder_run connect init_recording quit 0 script) (-1) true
    else
      exitAfterJoin (recorder_run connect init_recording quit 0 script) 0 false

/-! ## The synchronization node of the specification -/

/-- Modelled from the spec: the failures of the node operations (the error
taxonomy of the specification; the node library is not among the sources).
`NotBound` and `NoSuchSource` stand for a call on an endpoint that was never
bound or attached. -/
inductive NodeError
  | AlreadyBound
  | NodeClosed
  | ProtocolViolation
  | NotBound
  | NoSuchSource
  deriving DecidableEq, Repr

/-- Modelled from the spec: what a `Source` object holds of the protocol, whether
it is attached, its `last_seen_write_number`, and whether it is between a `wait`
that returned READY and the `post` that releases it. -/
structure SourceSlot where
  attached : Bool
  last_seen_write_number : Nat
  holding : Bool
  deriving DecidableEq, Repr

/-- Modelled from the spec: the node record (`state`, `source_ref_count`,
`read_barrier`, `write_number`) together with the `Source` objects created on
it so far, in order of creation. The counters are exact counts, as the
invariants of the specification read them. -/
structure Node where
  state : NodeState
  source_ref_count : Nat
  read_barrier : Nat
  write_number : Nat
  sources : List SourceSlot
  deriving DecidableEq, Repr

/-- Modelled from the spec: the result of a node operation, the new node, a call
that blocks on the condition variable, or a failure. -/
inductive NodeResult
  | ok (n : Node)
  | blocked
  | error (e : NodeError)
  deriving DecidableEq, Repr

/-- Modelled from the spec: "the first process touching a node creates its arena
and node, setting state to UNDEFINED"; `write_number` starts at 0. -/
def Node.fresh : Node :=
  { state := NodeState.UNDEFINED, source_ref_count := 0, read_barrier := 0,
    write_number := 0, sources := [] }

/-- Modelled from the spec: a source "still owes a release" for the current
sample when it is attached and has not yet seen the current `write_number`, or
has seen it and not yet posted. -/
def SourceSlot.owes (write_number : Nat) (s : SourceSlot) : Bool :=
  s.attached && (decide (s.last_seen_write_number < write_number) || s.holding)

/-- Modelled from the spec: `Sink::bind`, "transitions node UNDEFINED → SINK_BOUND;
fails with AlreadyBound if another sink owns this name". -/
def Node.bind (n : Node) : NodeResult :=
  if n.state = NodeState.UNDEFINED then
    NodeResult.ok { n with state := NodeState.SINK_BOUND }
  else
    NodeResult.error NodeError.AlreadyBound

/-- Modelled from the spec: the start of a publication cycle in `Sink::push`
(publication steps 1 to 3): wait "until read_barrier == 0 or state == END",
"publication with state == END returns NodeClosed", then "latch
read_barrier := source_ref_count and increment write_number"; the first
publication takes the node from SINK_BOUND to SINK_PRESENT. -/
def Node.publish (n : Node) : NodeResult :=
  match n.state with
  | NodeState.END => NodeResult.error NodeError.NodeClosed
  | NodeState.UNDEFINED => NodeResult.error NodeError.NotBound
  | _ =>
    if n.read_barrier = 0 then
      NodeResult.ok { n with
        state := NodeState.SINK_PRESENT
        read_barrier := n.source_ref_count
        write_number := n.write_number + 1 }
    else
      NodeResult.blocked

/-- Modelled from the spec: `Source::connect`, "increments source_ref_count under
exclusive lock" and initializes "last_seen_write_number := write_number"; "the
node itself is not advanced". -/
def Node.attach (n : Node) : NodeResult :=
  NodeResult.ok { n with
    source_ref_count := n.source_ref_count + 1
    sources := n.sources ++ [⟨true, n.write_number, false⟩] }

/-- Modelled from the spec: the detach of source `i`, "decrements
source_ref_count" and "also decrement read_barrier if the source still owed a
release". -/
def Node.detach (n : Node) (i : Nat) (s : SourceSlot) : Node :=
  { n with
    source_ref_count := n.source_ref_count - 1
    read_barrier := if s.owes n.write_number then n.read_barrier - 1 else n.read_barrier
    sources := n.sources.set i { s with attached := false, holding := false } }

/-- Modelled from the spec: `Source::wait` (consumption steps 1 to 4): wait "until
write_number > last_seen_write_number or state == END"; "if state == END, return
EndOfStream and detach"; else "record last_seen_write_number := write_number". -/
def Node.wait (n : Node) (i : Nat) : NodeResult :=
  match n.sources[i]? with
  | none => NodeResult.error NodeError.NoSuchSource
  | some s =>
    if s.attached = false then
      NodeResult.error NodeError.NoSuchSource
    else if n.state = NodeState.END then
      NodeResult.ok (n.detach i s)
    else if s.last_seen_write_number < n.write_number then
      NodeResult.ok { n with
        sources := n.sources.set i
          { s with last_seen_write_number := n.write_number, holding := true } }
    else
      NodeResult.blocked

/-- Modelled from the spec: `Source::post` (consumption step 5): "release sharable;
atomically decrement read_barrier"; a "post() without preceding successful
wait()" is a ProtocolViolation. -/
def Node.post (n : Node) (i : Nat) : NodeResult :=
  match n.sources[i]? with
  | none => NodeResult.error NodeError.NoSuchSource
  | some s =>
    if s.attached = true ∧ s.holding = true then
      NodeResult.ok { n with
        read_barrier := n.read_barrier - 1
        sources := n.sources.set i { s with holding := false } }
    else
      NodeResult.error NodeError.ProtocolViolation

/-- Modelled from the spec: `Source::disconnect`. -/
def Node.disconnect (n : Node) (i : Nat) : NodeResult :=
  match n.sources[i]? with
  | none => NodeResult.error NodeError.NoSuchSource
  | some s =>
    if s.attached = true then NodeResult.ok (n.detach i s)
    else NodeResult.error NodeError.NoSuchSource

/-- Modelled from the spec: `Sink::close`, "transitions state to END"; it is
idempotent. -/
def Node.close (n : Node) : NodeResult :=
  NodeResult.ok { n with state := NodeState.END }

/-- Modelled from the spec: the operations on a node. -/
inductive NodeOp
  | bind
  | publish
  | attach
  | wait (i : Nat)
  | post (i : Nat)
  | disconnect (i : Nat)
  | close
  deriving DecidableEq, Repr

/-- Modelled from the spec: the result of one operation. -/
def Node.apply (n : Node) : NodeOp → NodeResult
  | NodeOp.bind => n.bind
  | NodeOp.publish => n.publish
  | NodeOp.attach => n.attach
  | NodeOp.wait i => n.wait i
  | NodeOp.post i => n.post i
  | NodeOp.disconnect i => n.disconnect i
  | NodeOp.close => n.close

/-- Modelled from the spec: the node after one operation; an operation that
fails or blocks leaves the node as it is. -/
def Node.step (n : Node) (op : NodeOp) : Node :=
  match n.apply op with
  | NodeResult.ok n' => n'
  | _ => n

/-- Modelled from the spec: the node after a sequence of operations. -/
def Node.run (n : Node) (ops : List NodeOp) : Node :=
  ops.foldl Node.step n

/-- Modelled from the spec: the position of a state in the order
`UNDEFINED → SINK_BOUND → SINK_PRESENT → END`. -/
def NodeState.rank : NodeState → Nat
  | NodeState.UNDEFINED => 0
  | NodeState.SINK_BOUND => 1
  | NodeState.SINK_PRESENT => 2
  | NodeState.END => 3

/-- The counters of a node agree with its sources: `read_barrier` counts the
sources that still owe a release, `source_ref_count` the attached ones, no
source has seen a sample that is not yet published, and a source that holds a
sample is attached and holds the current one. -/
structure Node.Inv (n : Node) : Prop where
  barrier : n.read_barrier = n.sources.countP (SourceSlot.owes n.write_number)
  refs : n.source_ref_count = n.sources.countP (fun s => s.attached)
  seen : ∀ s ∈ n.sources, s.last_seen_write_number ≤ n.write_number
  held : ∀ s ∈ n.sources, s.holding = true →
    s.attached = true ∧ s.last_seen_write_number = n.write_number

/-! ## Shared-memory client -/

/-- The members of `SMClient<SyncType>` (SMClient.cpp): the three names the
constructor derives, the opened segment, the pointer to the shared object (none
for a null pointer) and the flag `shared_object_found`. -/
structure SMClient (SyncType : Type) where
  name : String
  shmem_name : String
  shobj_name : String
  cli_shared_memory : Option (String → Option SyncType)
  shared_object : Option SyncType
  shared_object_found : Bool

/-- `SMClient<SyncType>::SMClient(std::string source_name)`: the initializer list
sets the three names; `shared_object_found` is given its value by the class
declaration, which is not among the sources, and is a parameter. -/
def SMClient.new {SyncType : Type} (source_name : String) (shared_object_found : Bool) :
    SMClient SyncType :=
  { name := source_name
    shmem_name := source_name ++ "_sh_mem"
    shobj_name := source_name ++ "_sh_obj"
    cli_shared_memory := none
    shared_object := none
    shared_object_found := shared_object_found }

/-- The shared memory of the system as `managed_shared_memory(open_only, name)`
sees it: a segment name gives the named objects of the segment, or the message
of the `interprocess_exception` that opening it throws. -/
abbrev SharedMemory (SyncType : Type) := String → Except String (String → Option SyncType)

/-- How a call of `findSharedObject` ends: it returns, or it ends the process
through `exit(status)` after writing to `std::cerr`. -/
inductive FindOutcome (SyncType : Type)
  | returned (client : SMClient SyncType)
  | exited (status : Int) (cerr : List String)

/-- `EXIT_FAILURE` of `<cstdlib>`. -/
def EXIT_FAILURE : Int := 1

/-- `SMClient<SyncType>::findSharedObject` (SMClient.cpp): open the segment
`shmem_name`, look `shobj_name` up in it, set `shared_object_found`; when the
open throws, write the diagnostic and `exit(EXIT_FAILURE)`. -/
def SMClient.findSharedObject {SyncType : Type} (c : SMClient SyncType)
    (sys : SharedMemory SyncType) : FindOutcome SyncType :=
  match sys c.shmem_name with
  | Except.ok segment =>
    -- cli_shared_memory = managed_shared_memory(open_only, shmem_name.c_str());
    let c := { c with cli_shared_memory := some segment }
    -- shared_object = cli_shared_memory.find<SyncType>(shobj_name.c_str()).first;
    let c := { c with shared_object := segment c.shobj_name }
    FindOutcome.returned { c with shared_object_found := true }
  | Except.error what =>
    FindOutcome.exited EXIT_FAILURE
      [ "Error: " ++ what ++ "\n",
        "  This is likely due to the SOURCE, \"" ++ c.name ++ "\", not being started.\n",
        "  Did you start the SOURCE, \"" ++ c.name ++ "\", before staring this client?\n" ]

/-- The client a call of `findSharedObject` returned, if it returned. -/
def FindOutcome.client? {SyncType : Type} : FindOutcome SyncType → Option (SMClient SyncType)
  | FindOutcome.returned c => some c
  | FindOutcome.exited _ _ => none

/-! ## Frame masker -/

/-- A `cv::Mat` as the frame filters use it: its two dimensions and the value
of each element. -/
structure Mat (α : Type) where
  rows : Nat
  cols : Nat
  pixel : Nat → Nat → α

/-- `cv::Mat::size` of a two-dimensional matrix, compared by `!=` in the filter. -/
def Mat.size {α : Type} (m : Mat α) : Nat × Nat := (m.rows, m.cols)

/-- The matrix expression `m == value`: 255 where the element equals `value`,
0 elsewhere. -/
def Mat.eqScalar (m : Mat Nat) (value : Nat) : Mat Nat :=
  { m with pixel := fun r c => if m.pixel r c = value then 255 else 0 }

/-- `cv::Mat::setTo(value, mask)`: the elements whose mask element is non-zero
are set to `value`. -/
def Mat.setTo {α : Type} (m : Mat α) (value : α) (mask : Mat Nat) : Mat α :=
  { m with pixel := fun r c => if mask.pixel r c ≠ 0 then value else m.pixel r c }

/-- The errors `FrameMasker::filter` raises through `CV_Error`. -/
inductive CvError
  | StsBadSize (message : String)
  deriving DecidableEq, Repr

/-- The members of `FrameMasker` (FrameMasker.cpp). -/
structure FrameMasker where
  invert_mask : Bool
  mask_set : Bool
  roi_mask : Mat Nat

/-- `FrameMasker::FrameMasker(source_name, sink_name, invert_mask)`: the
initializer list is `FrameFilter(source_name, sink_name), invert_mask(false)`.
`mask_set` and `roi_mask` get their values from the class declaration, which is
not among the sources, and are parameters. -/
def FrameMasker.new (_source_name _sink_name : String) (_invert_mask : Bool)
    (mask_set : Bool) (roi_mask : Mat Nat) : FrameMasker :=
  { invert_mask := false, mask_set := mask_set, roi_mask := roi_mask }

/-- What `configure` leaves in the masker when the configuration names a mask
file that `cv::imread` could read as `mask`. -/
def FrameMasker.setMask (m : FrameMasker) (mask : Mat Nat) : FrameMasker :=
  { m with roi_mask := mask, mask_set := true }

/-- The effect of a call `filter(frame)`: the argument `frame`, passed by
reference, after the call, and the matrix returned or the error raised. -/
structure FilterResult (α : Type) where
  frame : Mat α
  returned : Except CvError (Mat α)

/-- `FrameMasker::filter` (FrameMasker.cpp). -/
def FrameMasker.filter {α : Type} [Zero α] (m : FrameMasker) (frame : Mat α) :
    FilterResult α :=
  if m.mask_set then
    if m.roi_mask.size ≠ frame.size then
      ⟨frame, Except.error
        (CvError.StsBadSize "Mask image and frames from SOURCE do not have equal sizes")⟩
    else
      -- frame.setTo(0, roi_mask == 0);
      let frame := frame.setTo 0 (m.roi_mask.eqScalar 0)
      ⟨frame, Except.ok frame⟩
  else
    ⟨frame, Except.ok frame⟩

/-! ## Recorder source lists -/

/-- The pass of `std::unique` over the elements after the first: an element
equal to the last one kept is dropped, any other is kept. -/
def std_unique_from (last : String) : List String → List String
  | [] => []
  | b :: rest => if last = b then std_unique_from last rest else b :: std_unique_from b rest

/-- `std::unique` followed by `resize` to the returned iterator: of every run of
consecutive equal elements the first is kept. -/
def std_unique : List String → List String
  | [] => []
  | a :: rest => a :: std_unique_from a rest

/-- The list handed to the `Recorder` and whether the duplicate warning was
written to `std::cerr`. -/
structure SourceList where
  names : List String
  warned : Bool
  deriving DecidableEq, Repr

/-- The handling of `position-sources` (and, by the same text, of
`frame-sources`) in `main` of recorder/main.cpp. `given` is the value of the
option when `variable_map.count(...)` is non-zero. -/
def recorder_sources (given : Option (List String)) : SourceList :=
  match given with
  | none => ⟨[], false⟩
  | some sources =>
    -- it = std::unique(begin, end); if (it != end) { resize; warn }
    if (std_unique sources).length ≠ sources.length then
      ⟨std_unique sources, true⟩
    else
      ⟨sources, false⟩

/-! ## Calibrator command line -/

/-- `cv::Size`; OpenCV declares its constructor as `Size_(_Tp _width, _Tp _height)`,
so the first argument is the width. -/
structure Size where
  width : Int
  height : Int
  deriving DecidableEq, Repr

/-- `CameraCalibrator::CameraModel`, as `main` names its values. -/
inductive CameraModel
  | PINHOLE
  | FISHEYE
  deriving DecidableEq, Repr

/-- `HomographyGenerator::EstimationMethod`, as `main` names its values. -/
inductive EstimationMethod
  | ROBUST
  | REGULAR
  | EXACT
  deriving DecidableEq, Repr

/-- `type_hash[type]` of calibrator/main.cpp: `operator[]` gives the zero
character for a key that is not in the map. -/
def type_hash (type : String) : Char :=
  if type = "camera" then 'a'
  else if type = "homography" then 'b'
  else Char.ofNat 0

/-- The entry of `homo_meth_hash` for a key, if there is one. -/
def homo_meth_hash (key : String) : Option EstimationMethod :=
  if key = "robust" then some EstimationMethod.ROBUST
  else if key = "regular" then some EstimationMethod.REGULAR
  else if key = "exact" then some EstimationMethod.EXACT
  else none

/-- The entry of `camera_model_hash` for a key, if there is one. -/
def camera_model_hash (key : String) : Option CameraModel :=
  if key = "pinhole" then some CameraModel.PINHOLE
  else if key = "fisheye" then some CameraModel.FISHEYE
  else none

/-- The `variable_map` of the calibrator after `po::store` and `po::notify`
accepted the command line: which options were given, with their values. -/
structure CalibratorOptions where
  help : Bool
  version : Bool
  type : Option String
  source : Option String
  calibration_path : Option String
  homography_method : Option String
  camera_model : Option String
  chessboard_height : Option Int
  chessboard_width : Option Int
  square_width : Option Rat
  config_file : Option String
  config_key : Option String

/-- The local variables of `main` once the options are parsed and checked. -/
structure CalibratorSettings where
  type : String
  source : String
  save_path : String
  homography_method : String
  camera_model : String
  chessboard_width : Int
  chessboard_height : Int
  square_length : Rat
  config_file : String
  config_key : String
  config_used : Bool
  deriving DecidableEq, Repr

/-- The end of the first `try` block of `main`: a `return` with the messages
given to `oat::Error`, or the settings the program goes on with. -/
inductive ParseEnd
  | exit (status : Int) (cerr : List String)
  | proceed (settings : CalibratorSettings)
  deriving DecidableEq, Repr

/-- The message of the check that pairs `config-file` with `config-key`. -/
def pairingError : String :=
  "A configuration file must be supplied with a corresponding config-key.\n"

/-- The checks of the first `try` block of `main` in calibrator/main.cpp, in
their order; the variables start from their initializers (`"robust"`,
`"pinhole"`, 6, 9, 1.0) and `cwd` is `bfs::current_path()`. -/
def calibrator_parse (cwd : String) (o : CalibratorOptions) : ParseEnd :=
  let type := o.type.getD ""
  let source := o.source.getD ""
  let homography_method := o.homography_method.getD "robust"
  let camera_model := o.camera_model.getD "pinhole"
  let chessboard_width := o.chessboard_width.getD 6
  let chessboard_height := o.chessboard_height.getD 9
  let square_length := o.square_width.getD 1
  if o.help then ParseEnd.exit 0 []
  else if o.version then ParseEnd.exit 0 []
  else if o.type.isNone then ParseEnd.exit (-1) ["A TYPE must be specified.\n"]
  else if o.source.isNone then ParseEnd.exit (-1) ["A SOURCE must be specified.\n"]
  else
    let save_path := o.calibration_path.getD cwd
    if (homo_meth_hash homography_method).isNone then
      ParseEnd.exit (-1) ["Unrecognized homography-method.\n"]
    else if type_hash type = 'a' ∧ (chessboard_height < 2 ∨ chessboard_width < 2) then
      ParseEnd.exit (-1) ["Camera calibration requires chessboard to be at least 2x2.\n"]
    else if (o.config_file.isSome ∧ o.config_key.isNone) ∨
        (o.config_file.isNone ∧ o.config_key.isSome) then
      ParseEnd.exit (-1) [pairingError]
    else
      ParseEnd.proceed
        { type := type, source := source, save_path := save_path,
          homography_method := homography_method, camera_model := camera_model,
          chessboard_width := chessboard_width, chessboard_height := chessboard_height,
          square_length := square_length,
          config_file := o.config_file.getD "", config_key := o.config_key.getD "",
          config_used := o.config_file.isSome }

/-- The component `main` creates, with the arguments of its constructor. -/
inductive CalibratorComponent
  | camera (source : String) (model : CameraModel) (chessboard_size : Size)
      (square_length : Rat)
  | homography (source : String) (meth : EstimationMethod)
  deriving DecidableEq, Repr

/-- The end of the `switch (type_hash[type])` that creates the component. It
stands outside every `try` block: the `std::out_of_range` that
`unordered_map::at` throws for a missing key leaves `main` uncaught. -/
inductive CreateEnd
  | created (component : CalibratorComponent)
  | exit (status : Int) (cerr : List String)
  | uncaught
  deriving DecidableEq, Repr

/-- The `switch (type_hash[type])` of `main` in calibrator/main.cpp. -/
def calibrator_create (s : CalibratorSettings) : CreateEnd :=
  if type_hash s.type = 'a' then
    -- auto chessboard_size = cv::Size(chessboard_height, chessboard_width);
    let chessboard_size : Size := Size.mk s.chessboard_height s.chessboard_width
    -- auto model = camera_model_hash.at(camera_model);
    match camera_model_hash s.camera_model with
    | some model =>
      CreateEnd.created
        (CalibratorComponent.camera s.source model chessboard_size s.square_length)
    | none => CreateEnd.uncaught
  else if type_hash s.type = 'b' then
    -- auto meth = homo_meth_hash.at(homography_method);
    match homo_meth_hash s.homography_method with
    | some meth => CreateEnd.created (CalibratorComponent.homography s.source meth)
    | none => CreateEnd.uncaught
  else
    CreateEnd.exit (-1) ["Invalid TYPE specified.\n"]

/-- The end of `main` of the calibrator: how it finished, the messages its
option checks gave to `oat::Error`, the component it created, `config_used`,
whether `calibrator->configure` was called, and the run phase if it was
reached. -/
structure CalibratorMain where
  finish : Finish
  cerr : List String
  component : Option CalibratorComponent
  config_used : Bool
  configured : Bool
  run : Option MainResult

/-- `main` of calibrator/main.cpp on a command line that the option parser
accepts: the option checks, the creation of the component, then the last `try`
block (`calibrator_main_run`). -/
def calibrator_main (cwd : String) (o : CalibratorOptions)
    (configure generateSavePath : Option Exn) (quit : Nat) (script : List (Tick Bool)) :
    CalibratorMain :=
  match calibrator_parse cwd o with
  | ParseEnd.exit status cerr => ⟨Finish.returned status, cerr, none, false, false, none⟩
  | ParseEnd.proceed s =>
    match calibrator_create s with
    | CreateEnd.exit status cerr =>
      ⟨Finish.returned status, cerr, none, s.config_used, false, none⟩
    | CreateEnd.uncaught => ⟨Finish.terminated, [], none, s.config_used, false, none⟩
    | CreateEnd.created component =>
      let r := calibrator_main_run s.config_used configure generateSavePath quit script
      ⟨r.finish, [], some component, s.config_used,
        (calibrator_configure s.config_used configure).1, some r⟩

/-- The command line gets past the checks that `main` makes before it looks
at `config-file` and `config-key`: no `help`, no `version`, a TYPE and a SOURCE,
a known `homography-method`, and for TYPE camera a chessboard of at least 2x2. -/
def CalibratorOptions.reachesConfigCheck (o : CalibratorOptions) : Bool :=
  !o.help && !o.version && o.type.isSome && o.source.isSome &&
    (homo_meth_hash (o.homography_method.getD "robust")).isSome &&
    !(type_hash (o.type.getD "") == 'a' &&
      (decide (o.chessboard_height.getD 9 < 2) || decide (o.chessboard_width.getD 6 < 2)))

/-- A command line with nothing but the two positional arguments. -/
def CalibratorOptions.positional (type source : String) : CalibratorOptions :=
  { help := false, version := false, type := some type, source := some source,
    calibration_path := none, homography_method := none, camera_model := none,
    chessboard_height := none, chessboard_width := none, square_width := none,
    config_file := none, config_key := none }

/-- The chessboard size a camera calibrator was created with. -/
def CalibratorComponent.chessboard_size? : CalibratorComponent → Option Size
  | CalibratorComponent.camera _ _ chessboard_size _ => some chessboard_size
  | CalibratorComponent.homography _ _ => none

/-! ## Positions: combiner and region filter -/

/-- Modelled from the spec: the 2D vectors of the position record (its "2D point,
2D velocity, 2D unit heading"; the sources use them through `x`, `y`, `+`, `-`,
scaling and division). The header is not among the sources. The `double`
coordinates are rationals: arithmetic is exact, and a division by zero gives 0
where the machine gives infinity or not-a-number. -/
@[ext]
structure Vec2 where
  x : Rat
  y : Rat
  deriving DecidableEq, Repr

/-- The vector sum `a + b`. -/
def Vec2.add (a b : Vec2) : Vec2 := ⟨a.x + b.x, a.y + b.y⟩

/-- The vector difference `a - b`. -/
def Vec2.sub (a b : Vec2) : Vec2 := ⟨a.x - b.x, a.y - b.y⟩

/-- The scaled vector `k * a`. -/
def Vec2.scale (k : Rat) (a : Vec2) : Vec2 := ⟨k * a.x, k * a.y⟩

/-- The vector `a / k`. -/
def Vec2.div (a : Vec2) (k : Rat) : Vec2 := ⟨a.x / k, a.y / k⟩

/-- Modelled from the spec: the position record, "a fixed-layout record with: 2D
point, 2D velocity, 2D unit heading, validity flags, and a bounded region-label
string"; its header is not among the sources, the field names are those the
sources use. `region` holds the characters of the C string in the field. -/
structure Position2D where
  position : Vec2
  position_valid : Bool
  velocity : Vec2
  velocity_valid : Bool
  heading : Vec2
  heading_valid : Bool
  region : List Char
  region_valid : Bool
  deriving DecidableEq, Repr

/-- The members of `MeanPosition` that `combine` reads. -/
structure MeanPosition where
  generate_heading_ : Bool
  heading_anchor_idx_ : Nat

/-- `sources[heading_anchor_idx_].position`; `configure` keeps the index within
the sources, outside of them the model reads the origin. -/
def MeanPosition.anchor (m : MeanPosition) (sources : List Position2D) : Vec2 :=
  (sources[m.heading_anchor_idx_]?.map (fun p => p.position)).getD ⟨0, 0⟩

/-- The body of the averaging loop of `MeanPosition::combine` for one source
`pos`. -/
def MeanPosition.average (m : MeanPosition) (sources : List Position2D) (mean_denom : Rat)
    (combined_position pos : Position2D) : Position2D :=
  -- Position
  let c : Position2D :=
    if pos.position_valid then
      { combined_position with
        position := combined_position.position.add (Vec2.scale mean_denom pos.position) }
    else
      { combined_position with position_valid := false }
  -- Velocity
  let c : Position2D :=
    if pos.velocity_valid then
      { c with velocity := c.velocity.add (Vec2.scale mean_denom pos.velocity) }
    else
      { c with velocity_valid := false }
  if m.generate_heading_ then
    -- Find heading from anchor to other positions
    if c.position_valid then
      { c with heading := c.heading.add (pos.position.sub (m.anchor sources)) }
    else
      { c with heading_valid := false }
  else
    -- Head direction
    if pos.heading_valid then
      { c with heading := c.heading.add pos.heading }
    else
      { c with heading_valid := false }

/-- `MeanPosition::combine` up to the renormalization: the resets and the
averaging loop. -/
def MeanPosition.accumulate (m : MeanPosition) (sources : List Position2D)
    (combined_position : Position2D) : Position2D :=
  let mean_denom : Rat := 1 / (sources.length : Rat)
  let c : Position2D :=
    { combined_position with
      position := ⟨0, 0⟩, position_valid := true
      velocity := ⟨0, 0⟩, velocity_valid := true
      heading := ⟨0, 0⟩, heading_valid := true }
  sources.foldl (m.average sources mean_denom) c

/-- `MeanPosition::combine` (MeanPosition.cpp); `sqrt` stands for `std::sqrt`. -/
def MeanPosition.combine (sqrt : Rat → Rat) (m : MeanPosition) (sources : List Position2D)
    (combined_position : Position2D) : Position2D :=
  let c := m.accumulate sources combined_position
  -- Renormalize head-direction unit vector
  if c.heading_valid then
    let mag := sqrt (c.heading.x ^ 2 + c.heading.y ^ 2)
    { c with heading := c.heading.div mag }
  else
    c

/-- The sum of a list of vectors. -/
def Vec2.sum (l : List Vec2) : Vec2 := l.foldr Vec2.add ⟨0, 0⟩

/-- A position record with valid position, velocity and heading and no region. -/
def Position2D.valid (position velocity heading : Vec2) : Position2D :=
  { position := position, position_valid := true, velocity := velocity,
    velocity_valid := true, heading := heading, heading_valid := true,
    region := [], region_valid := false }

/-- The members of `RegionFilter2D`: the region ids and, at the same indices,
the region contours (points with integer coordinates, `cv::Point`). -/
structure RegionFilter2D where
  region_ids : List String
  region_contours : List (List (Int × Int))

/-- The inner loop of `RegionFilter2D::configure` over the points of one
region: a point that is not a pair throws `std::runtime_error`, a pair is
converted by `toPoint` (the conversion from `cv::Point2d` to `cv::Point`) and
pushed on the contour. -/
def RegionFilter2D.readContour (toPoint : Vec2 → Int × Int) :
    List (List Rat) → Except Exn (List (Int × Int))
  | [] => Except.ok []
  | point :: rest =>
    match point with
    | [px, py] =>
      match RegionFilter2D.readContour toPoint rest with
      | Except.ok contour => Except.ok (toPoint ⟨px, py⟩ :: contour)
      | Except.error e => Except.error e
    | _ => Except.error Exn.runtime_error

/-- The loop of `RegionFilter2D::configure` over the entries of the
configuration table (key and nested array): the key is pushed on `region_ids`
as it is, the points on a new contour. -/
def RegionFilter2D.configure (toPoint : Vec2 → Int × Int) (f : RegionFilter2D) :
    List (String × List (List Rat)) → Except Exn RegionFilter2D
  | [] => Except.ok f
  | (key, region) :: rest =>
    match RegionFilter2D.readContour toPoint region with
    | Except.ok contour =>
      RegionFilter2D.configure toPoint
        { region_ids := f.region_ids ++ [key],
          region_contours := f.region_contours ++ [contour] } rest
    | Except.error e => Except.error e

/-- The effect of `strcpy(position.region, &writable[0])`, where `writable` is
the region id followed by the terminator: the characters before the first zero
character become the string in the field, and they and the terminator are the
bytes stored from the start of the field on. Nothing in the call looks at the
length of the field. -/
def strcpy_region (region_id : String) : List Char × Nat :=
  let writable := region_id.toList ++ [Char.ofNat 0]
  let copied := writable.takeWhile (fun ch => ch != Char.ofNat 0)
  (copied, copied.length + 1)

/-- The loop of `RegionFilter2D::filter` over `region_contours` with its index
`i` into `region_ids`: the id of the first region the point lies in (the test
is at least 0), if there is one. -/
def RegionFilter2D.findRegion (pointPolygonTest : List (Int × Int) → Int × Int → Rat)
    (region_ids : List String) (pt : Int × Int) : List (List (Int × Int)) → Nat → Option String
  | [], _ => none
  | r :: rest, i =>
    if pointPolygonTest r pt ≥ 0 then
      some (region_ids.getD i "")
    else
      RegionFilter2D.findRegion pointPolygonTest region_ids pt rest (i + 1)

/-- The position record after `RegionFilter2D::filter` and the number of bytes
the call stored at `position.region` (0 when it stored none). -/
structure RegionWrite where
  position : Position2D
  bytes_written : Nat

/-- `RegionFilter2D::filter` (RegionFilter2D.cpp); `toPoint` is the conversion
`(cv::Point)position.position` and `pointPolygonTest` is
`cv::pointPolygonTest(contour, pt, false)`. -/
def RegionFilter2D.filter (toPoint : Vec2 → Int × Int)
    (pointPolygonTest : List (Int × Int) → Int × Int → Rat) (f : RegionFilter2D)
    (position : Position2D) : RegionWrite :=
  if position.position_valid then
    let pt := toPoint position.position
    match RegionFilter2D.findRegion pointPolygonTest f.region_ids pt f.region_contours 0 with
    | some region_id =>
      ⟨{ position with region_valid := true, region := (strcpy_region region_id).1 },
        (strcpy_region region_id).2⟩
    | none => ⟨position, 0⟩
  else
    ⟨position, 0⟩

/-- The three validity flags of a position record: position, velocity, heading. -/
def Position2D.flags (p : Position2D) : Bool × Bool × Bool :=
  (p.position_valid, p.velocity_valid, p.heading_valid)

/-! ## Theorems -/

/-- C1: in each consume step (`Calibrator::process`, `Viewer::showImage`,
`PositionSocket::process`), whatever `wait()` returns: a state other than END
gives exactly one copy-out followed by exactly one `post()`, both after the
wait; END gives neither a copy nor a post. -/
theorem consume_step_copy_then_post {α : Type} (w : NodeState) (shared : α)
    (c : Calibrator α) (p : PositionSocket α) (v : Viewer α)
    (minPeriod now1 now2 : Int) (command : Char) :
    (w ≠ NodeState.END →
      CopyThenPost (c.process ⟨w, shared⟩).2.2 ∧
      CopyThenPost (v.showImage minPeriod ⟨w, shared⟩ now1 now2 command).2.2 ∧
      CopyThenPost (p.process ⟨w, shared⟩).2.2) ∧
    (w = NodeState.END →
      NoCopyNoPost (c.process ⟨w, shared⟩).2.2 ∧
      NoCopyNoPost (v.showImage minPeriod ⟨w, shared⟩ now1 now2 command).2.2 ∧
      NoCopyNoPost (p.process ⟨w, shared⟩).2.2) := by
  refine ⟨fun hw => ⟨?_, ?_, ?_⟩, fun hw => ?_⟩
  · refine ⟨Action.copyTo, [Action.calibrate], ?_, rfl, ?_⟩
    · simp [Calibrator.process, hw]
    · intro a ha
      simp only [List.mem_singleton] at ha
      subst ha
      rfl
  · by_cases hd : now1 - v.tock_ > minPeriod
    · by_cases hk : command = 's'
      · refine ⟨Action.copyTo, [Action.imshow, Action.waitKey, Action.imwrite], ?_, rfl, ?_⟩
        · simp [Viewer.showImage, hw, hd, hk]
        · intro a ha
          simp only [List.mem_cons, List.mem_singleton, List.not_mem_nil, or_false] at ha
          rcases ha with h | h | h <;> subst h <;> rfl
      · refine ⟨Action.copyTo, [Action.imshow, Action.waitKey], ?_, rfl, ?_⟩
        · simp [Viewer.showImage, hw, hd, hk]
        · intro a ha
          simp only [List.mem_cons, List.mem_singleton, List.not_mem_nil, or_false] at ha
          rcases ha with h | h <;> subst h <;> rfl
    · refine ⟨Action.copyTo, [], ?_, rfl, ?_⟩
      · simp [Viewer.showImage, hw, hd]
      · intro a ha
        simp at ha
  · refine ⟨Action.clone, [Action.sendPosition], ?_, rfl, ?_⟩
    · simp [PositionSocket.process, hw]
    · intro a ha
      simp only [List.mem_singleton] at ha
      subst ha
      rfl
  · subst hw
    refine ⟨?_, ?_, ?_⟩ <;> intro a ha
    · simp [Calibrator.process] at ha
      subst ha
      exact ⟨rfl, by decide⟩
    · simp [Viewer.showImage] at ha
      subst ha
      exact ⟨rfl, by decide⟩
    · simp [PositionSocket.process] at ha
      subst ha
      exact ⟨rfl, by decide⟩

/-- C1 at a concrete input: the source is in state SINK_PRESENT, the viewer's
update period has passed and the key 's' is pressed. -/
theorem consume_step_copy_then_post_witness :
    CopyThenPost ((⟨NodeState.UNDEFINED, 0⟩ : Calibrator Nat).process
      ⟨NodeState.SINK_PRESENT, 5⟩).2.2 ∧
    CopyThenPost ((⟨NodeState.UNDEFINED, 0, 0, 0⟩ : Viewer Nat).showImage 10
      ⟨NodeState.SINK_PRESENT, 5⟩ 100 101 's').2.2 ∧
    CopyThenPost ((⟨NodeState.UNDEFINED, 0⟩ : PositionSocket Nat).process
      ⟨NodeState.SINK_PRESENT, 5⟩).2.2 :=
  (consume_step_copy_then_post NodeState.SINK_PRESENT 5 ⟨NodeState.UNDEFINED, 0⟩
    ⟨NodeState.UNDEFINED, 0⟩ ⟨NodeState.UNDEFINED, 0, 0, 0⟩ 10 100 101 's').1 (by decide)

/-- C2: in each consume step the returned boolean is true exactly when `wait()`
returned END, and a step that returns true makes only the `wait` call: the
downstream work (`calibrate`, `imshow`, `sendPosition`) is not run. -/
theorem consume_step_returns_end_flag {α : Type} (w : NodeState) (shared : α)
    (c : Calibrator α) (p : PositionSocket α) (v : Viewer α)
    (minPeriod now1 now2 : Int) (command : Char) :
    (((c.process ⟨w, shared⟩).1 = true ↔ w = NodeState.END) ∧
      ((v.showImage minPeriod ⟨w, shared⟩ now1 now2 command).1 = true ↔ w = NodeState.END) ∧
      ((p.process ⟨w, shared⟩).1 = true ↔ w = NodeState.END)) ∧
    ((c.process ⟨w, shared⟩).1 = true →
      ∀ a ∈ (c.process ⟨w, shared⟩).2.2, a.isDownstream = false) ∧
    ((v.showImage minPeriod ⟨w, shared⟩ now1 now2 command).1 = true →
      ∀ a ∈ (v.showImage minPeriod ⟨w, shared⟩ now1 now2 command).2.2,
        a.isDownstream = false) ∧
    ((p.process ⟨w, shared⟩).1 = true →
      ∀ a ∈ (p.process ⟨w, shared⟩).2.2, a.isDownstream = false) := by
  have hc : (c.process ⟨w, shared⟩).1 = true ↔ w = NodeState.END := by
    by_cases hw : w = NodeState.END <;> simp [Calibrator.process, hw]
  have hv : (v.showImage minPeriod ⟨w, shared⟩ now1 now2 command).1 = true ↔
      w = NodeState.END := by
    by_cases hw : w = NodeState.END
    · simp [Viewer.showImage, hw]
    · by_cases hd : now1 - v.tock_ > minPeriod <;> by_cases hk : command = 's' <;>
        simp [Viewer.showImage, hw, hd, hk]
  have hp : (p.process ⟨w, shared⟩).1 = true ↔ w = NodeState.END := by
    by_cases hw : w = NodeState.END <;> simp [PositionSocket.process, hw]
  refine ⟨⟨hc, hv, hp⟩, fun h => ?_, fun h => ?_, fun h => ?_⟩
  · have hw := hc.1 h
    subst hw
    intro a ha
    simp [Calibrator.process] at ha
    subst ha
    rfl
  · have hw := hv.1 h
    subst hw
    intro a ha
    simp [Viewer.showImage] at ha
    subst ha
    rfl
  · have hw := hp.1 h
    subst hw
    intro a ha
    simp [PositionSocket.process] at ha
    subst ha
    rfl

/-- C2 at a concrete input: the source is at END, the calibrator step returns
true and runs no downstream work. -/
theorem consume_step_returns_end_flag_witness :
    ∀ a ∈ ((⟨NodeState.UNDEFINED, 0⟩ : Calibrator Nat).process ⟨NodeState.END, 5⟩).2.2,
      a.isDownstream = false :=
  (consume_step_returns_end_flag NodeState.END 5 ⟨NodeState.UNDEFINED, 0⟩
    ⟨NodeState.UNDEFINED, 0⟩ ⟨NodeState.UNDEFINED, 0, 0, 0⟩ 10 100 101 's').2.1 rfl

/-! ### Run loops -/

/-- With `source_eof` set the loop body is not entered. -/
theorem processLoop_eof_set (quit : Nat) (script : List (Tick Bool)) :
    processLoop quit 1 script = ⟨LoopEnd.done, []⟩ := by
  cases script with
  | nil => simp [processLoop]
  | cons t ts => simp [processLoop]

/-- With `quit` set the loop body is not entered. -/
theorem processLoop_quit_set (source_eof : Nat) (script : List (Tick Bool)) :
    processLoop 1 source_eof script = ⟨LoopEnd.done, []⟩ := by
  cases script with
  | nil => simp [processLoop]
  | cons t ts =>
    cases h : t.sigint <;> simp [processLoop, h]

/-- A call of the step that returns true is the last call of the loop, and the
loop then ends through its condition. -/
theorem processLoop_true_is_last (script : List (Tick Bool)) :
    ∀ (quit source_eof : Nat) (pre post : List (StepOutcome Bool)),
      (processLoop quit source_eof script).calls = pre ++ StepOutcome.returns true :: post →
      post = [] ∧ (processLoop quit source_eof script).outcome = LoopEnd.done := by
  induction script with
  | nil =>
    intro quit source_eof pre post h
    simp [processLoop] at h
  | cons t ts ih =>
    intro quit source_eof pre post h
    by_cases hc : (if t.sigint then 1 else quit) = 0 ∧ source_eof = 0
    · cases hs : t.step with
      | throws e =>
        have hcalls : (processLoop quit source_eof (t :: ts)).calls = [StepOutcome.throws e] := by
          simp only [processLoop, hs, if_pos hc]
        rw [hcalls] at h
        cases pre with
        | nil => simp at h
        | cons x pre => simp at h
      | returns b =>
        have hloop : processLoop quit source_eof (t :: ts) =
            ⟨(processLoop (if t.sigint then 1 else quit) (if b then 1 else 0) ts).outcome,
              StepOutcome.returns b ::
                (processLoop (if t.sigint then 1 else quit) (if b then 1 else 0) ts).calls⟩ := by
          simp only [processLoop, hs, if_pos hc]
        rw [hloop] at h ⊢
        cases pre with
        | nil =>
          simp only [List.nil_append, List.cons.injEq, StepOutcome.returns.injEq] at h
          obtain ⟨hb, hpost⟩ := h
          subst hb
          simp only [if_true, processLoop_eof_set] at hpost ⊢
          exact ⟨hpost.symm, trivial⟩
        | cons x pre =>
          simp only [List.cons_append, List.cons.injEq] at h
          exact ih _ _ pre post h.2
    · have hcalls : (processLoop quit source_eof (t :: ts)).calls = [] := by
        simp only [processLoop, if_neg hc]
      rw [hcalls] at h
      simp at h

/-- The handler of `run` keeps the calls made. -/
theorem catchInterrupt_calls (r : LoopResult Bool) : (catchInterrupt r).calls = r.calls := by
  unfold catchInterrupt
  split
  · split <;> rfl
  · rfl

/-- The handler of `run` leaves a loop that ended through its condition as it is. -/
theorem catchInterrupt_done (r : LoopResult Bool) (h : r.outcome = LoopEnd.done) :
    (catchInterrupt r).outcome = LoopEnd.done := by
  unfold catchInterrupt
  split
  · rename_i code hcode
    rw [h] at hcode
    cases hcode
  · exact h

/-- In `run` of framefilter a call that returns true is the last one and `run`
returns normally. -/
theorem framefilter_run_true_is_last (connect : Option Exn) (quit : Nat)
    (script : List (Tick Bool)) (pre post : List (StepOutcome Bool))
    (h : (framefilter_run connect quit 0 script).calls = pre ++ StepOutcome.returns true :: post) :
    post = [] ∧ (framefilter_run connect quit 0 script).outcome = LoopEnd.done := by
  unfold framefilter_run at h ⊢
  rw [catchInterrupt_calls] at h
  cases connect with
  | some e => simp at h
  | none =>
    obtain ⟨h1, h2⟩ := processLoop_true_is_last script quit 0 pre post h
    exact ⟨h1, catchInterrupt_done _ h2⟩

/-- In `run` of recorder a call that returns true is the last one and `run`
returns normally. -/
theorem recorder_run_true_is_last (connect init_recording : Option Exn) (quit : Nat)
    (script : List (Tick Bool)) (pre post : List (StepOutcome Bool))
    (h : (recorder_run connect init_recording quit 0 script).calls =
      pre ++ StepOutcome.returns true :: post) :
    post = [] ∧ (recorder_run connect init_recording quit 0 script).outcome = LoopEnd.done := by
  unfold recorder_run at h ⊢
  rw [catchInterrupt_calls] at h
  cases connect with
  | some e => simp at h
  | none =>
    cases init_recording with
    | some e => simp at h
    | none =>
      obtain ⟨h1, h2⟩ := processLoop_true_is_last script quit 0 pre post h
      exact ⟨h1, catchInterrupt_done _ h2⟩

/-- The calls a main program reports after `run` are those of `run`. -/
theorem exitAfterRun_calls (r : LoopResult Bool) : (exitAfterRun r).calls = r.calls := by
  unfold exitAfterRun
  split <;> rfl

/-- The calls a main program reports after joining `run` are those of `run`. -/
theorem exitAfterJoin_calls (r : LoopResult Bool) (status : Int) (d : Bool) :
    (exitAfterJoin r status d).calls = r.calls := by
  unfold exitAfterJoin
  split <;> rfl

/-- The `zmq::error_t` handler of the recorder's RPC control session is an error
path of its own: it returns -1 whether the run loop ended at end-of-stream or
without any step reporting it. -/
theorem recorder_rpc_zmq_error_exit_status :
    (recorder_main_run ControlMode.RPC true none none 0
        [⟨false, StepOutcome.returns true⟩]).finish = Finish.returned (-1) ∧
    (recorder_main_run ControlMode.RPC true none none 0
        [⟨true, StepOutcome.returns false⟩]).calls = [] ∧
    (recorder_main_run ControlMode.RPC true none none 0
        [⟨true, StepOutcome.returns false⟩]).finish = Finish.returned (-1) := by
  decide

/-- In the three main programs a call of the process step that returns true is
the last call of the run loop, and `main` then returns: 0 on every path but the
`zmq::error_t` handler of the recorder's RPC control session, which returns -1. -/
theorem main_exit_after_end_of_stream (config_used : Bool)
    (configure generateSavePath connect init_recording : Option Exn)
    (control_mode : ControlMode) (zmq_error : Bool) (quit : Nat) (script : List (Tick Bool))
    (pre post : List (StepOutcome Bool)) :
    ((calibrator_main_run config_used configure generateSavePath quit script).calls =
        pre ++ StepOutcome.returns true :: post →
      post = [] ∧
      (calibrator_main_run config_used configure generateSavePath quit script).finish =
        Finish.returned 0) ∧
    ((framefilter_main_run config_used configure connect quit script).calls =
        pre ++ StepOutcome.returns true :: post →
      post = [] ∧
      (framefilter_main_run config_used configure connect quit script).finish =
        Finish.returned 0) ∧
    ((recorder_main_run control_mode zmq_error connect init_recording quit script).calls =
        pre ++ StepOutcome.returns true :: post →
      post = [] ∧
      (recorder_main_run control_mode zmq_error connect init_recording quit script).finish =
        Finish.returned
          (if control_mode = ControlMode.RPC ∧ zmq_error = true then -1 else 0)) := by
  refine ⟨?_, ?_, ?_⟩
  · intro h
    unfold calibrator_main_run at h ⊢
    split at h
    · simp at h
    · split at h
      · simp at h
      · rw [exitAfterRun_calls] at h
        obtain ⟨h1, h2⟩ := processLoop_true_is_last script quit 0 pre post h
        refine ⟨h1, ?_⟩
        simp only [exitAfterRun, calibrator_run, h2]
  · intro h
    unfold framefilter_main_run at h ⊢
    split at h
    · simp at h
    · rw [exitAfterRun_calls] at h
      obtain ⟨h1, h2⟩ := framefilter_run_true_is_last connect quit script pre post h
      refine ⟨h1, ?_⟩
      simp only [exitAfterRun, h2]
  · intro h
    cases control_mode with
    | NONE =>
      simp only [recorder_main_run, exitAfterRun_calls] at h ⊢
      obtain ⟨h1, h2⟩ := recorder_run_true_is_last connect init_recording quit script pre post h
      refine ⟨h1, ?_⟩
      simp [exitAfterRun, h2]
    | LOCAL =>
      simp only [recorder_main_run, exitAfterJoin_calls] at h ⊢
      obtain ⟨h1, h2⟩ := recorder_run_true_is_last connect init_recording quit script pre post h
      refine ⟨h1, ?_⟩
      simp [exitAfterJoin, h2]
    | RPC =>
      cases zmq_error with
      | true =>
        simp only [recorder_main_run, exitAfterJoin_calls, if_true] at h ⊢
        obtain ⟨h1, h2⟩ :=
          recorder_run_true_is_last connect init_recording quit script pre post h
        refine ⟨h1, ?_⟩
        simp [exitAfterJoin, h2]
      | false =>
        simp only [recorder_main_run, exitAfterJoin_calls, Bool.false_eq_true, if_false] at h ⊢
        obtain ⟨h1, h2⟩ :=
          recorder_run_true_is_last connect init_recording quit script pre post h
        refine ⟨h1, ?_⟩
        simp [exitAfterJoin, h2]

/-- C3: in the run loops of calibrator, framefilter and recorder, once the
process step has reported end-of-stream (a call returned true) the loop makes
no further call to it, and the program finishes with exit status 0. For the
recorder this holds under every control mode; the control session itself ends
without an error of its own (`zmq_error` is false). -/
theorem run_loop_stops_at_end_of_stream (config_used : Bool)
    (configure generateSavePath connect init_recording : Option Exn)
    (control_mode : ControlMode) (quit : Nat) (script : List (Tick Bool))
    (pre post : List (StepOutcome Bool)) :
    ((calibrator_main_run config_used configure generateSavePath quit script).calls =
        pre ++ StepOutcome.returns true :: post →
      post = [] ∧
      (calibrator_main_run config_used configure generateSavePath quit script).finish =
        Finish.returned 0) ∧
    ((framefilter_main_run config_used configure connect quit script).calls =
        pre ++ StepOutcome.returns true :: post →
      post = [] ∧
      (framefilter_main_run config_used configure connect quit script).finish =
        Finish.returned 0) ∧
    ((recorder_main_run control_mode false connect init_recording quit script).calls =
        pre ++ StepOutcome.returns true :: post →
      post = [] ∧
      (recorder_main_run control_mode false connect init_recording quit script).finish =
        Finish.returned 0) := by
  obtain ⟨hc, hf, hr⟩ := main_exit_after_end_of_stream config_used configure generateSavePath
    connect init_recording control_mode false quit script pre post
  refine ⟨hc, hf, fun h => ?_⟩
  obtain ⟨h1, h2⟩ := hr h
  refine ⟨h1, ?_⟩
  rw [h2]
  simp

/-- C3 at concrete inputs: the step returns false, then true; a third round of
the script is never called and the program returns 0, in the calibrator and in
the recorder under RPC control. -/
theorem run_loop_stops_at_end_of_stream_witness :
    (([] : List (StepOutcome Bool)) = [] ∧
      (calibrator_main_run false none none 0
        [⟨false, StepOutcome.returns false⟩, ⟨false, StepOutcome.returns true⟩,
          ⟨false, StepOutcome.returns false⟩]).finish = Finish.returned 0) ∧
    (([] : List (StepOutcome Bool)) = [] ∧
      (recorder_main_run ControlMode.RPC false none none 0
        [⟨false, StepOutcome.returns false⟩, ⟨false, StepOutcome.returns true⟩,
          ⟨false, StepOutcome.returns false⟩]).finish = Finish.returned 0) :=
  ⟨(run_loop_stops_at_end_of_stream false none none none none ControlMode.NONE 0
      [⟨false, StepOutcome.returns false⟩, ⟨false, StepOutcome.returns true⟩,
        ⟨false, StepOutcome.returns false⟩] [StepOutcome.returns false] []).1 (by decide),
    (run_loop_stops_at_end_of_stream false none none none none ControlMode.RPC 0
      [⟨false, StepOutcome.returns false⟩, ⟨false, StepOutcome.returns true⟩,
        ⟨false, StepOutcome.returns false⟩] [StepOutcome.returns false] []).2.2 (by decide)⟩

/-- C4, at the failing input: a wait interrupted by the process signal (the
process step throws an interprocess exception with error code 1) makes the
calibrator return -1 through its `catch (...)` handler, while framefilter and
recorder, whose `run` catches it, return 0 without a diagnostic. -/
theorem calibrator_interrupted_wait_exits_failure :
    (calibrator_main_run false none none 0
        [⟨false, StepOutcome.throws (Exn.interprocess 1)⟩]).finish = Finish.returned (-1) ∧
    (calibrator_main_run false none none 0
        [⟨false, StepOutcome.throws (Exn.interprocess 1)⟩]).diagnostic = true ∧
    (calibrator_main_run false none none 0
        [⟨false, StepOutcome.returns true⟩]).finish = Finish.returned 0 ∧
    (framefilter_main_run false none none 0
        [⟨false, StepOutcome.throws (Exn.interprocess 1)⟩]).finish = Finish.returned 0 ∧
    (framefilter_main_run false none none 0
        [⟨false, StepOutcome.throws (Exn.interprocess 1)⟩]).diagnostic = false ∧
    (recorder_main_run ControlMode.NONE false none none 0
        [⟨false, StepOutcome.throws (Exn.interprocess 1)⟩]).finish = Finish.returned 0 ∧
    (recorder_main_run ControlMode.NONE false none none 0
        [⟨false, StepOutcome.throws (Exn.interprocess 1)⟩]).diagnostic = false := by
  decide

/-- C5, at the failing input: entered with `quit` already set, the viewer loop
still calls `showImage` once (its condition calls the step before it reads
`quit`), while the loops of calibrator, framefilter and recorder make no call. -/
theorem viewer_run_steps_with_quit_set {σ : Type} [DecidableEq σ] (END s : σ)
    (rest : List (Tick σ)) (script : List (Tick Bool)) :
    (viewer_run END 1 (⟨false, StepOutcome.returns s⟩ :: rest)).calls =
        [StepOutcome.returns s] ∧
    (calibrator_run 1 0 script).calls = [] ∧
    (framefilter_run none 1 0 script).calls = [] ∧
    (recorder_run none none 1 0 script).calls = [] := by
  refine ⟨?_, ?_, ?_, ?_⟩
  · simp [viewer_run]
  · simp [calibrator_run, processLoop_quit_set]
  · simp [framefilter_run, catchInterrupt_calls, processLoop_quit_set]
  · simp [recorder_run, catchInterrupt_calls, processLoop_quit_set]

/-! ### Node state machine -/

/-- A successful `bind` starts from UNDEFINED and only sets the state. -/
theorem Node.bind_ok {n n' : Node} (h : n.bind = NodeResult.ok n') :
    n.state = NodeState.UNDEFINED ∧ n' = { n with state := NodeState.SINK_BOUND } := by
  unfold Node.bind at h
  by_cases hs : n.state = NodeState.UNDEFINED
  · rw [if_pos hs] at h
    injection h with h
    exact ⟨hs, h.symm⟩
  · rw [if_neg hs] at h
    cases h

/-- A publication cycle begins only on a bound, open node whose `read_barrier`
is 0. -/
theorem Node.publish_ok {n n' : Node} (h : n.publish = NodeResult.ok n') :
    n.state ≠ NodeState.UNDEFINED ∧ n.state ≠ NodeState.END ∧ n.read_barrier = 0 ∧
      n' = { n with
        state := NodeState.SINK_PRESENT
        read_barrier := n.source_ref_count
        write_number := n.write_number + 1 } := by
  unfold Node.publish at h
  by_cases hb : n.read_barrier = 0
  · cases hs : n.state <;> simp [hs, hb] at h
    · exact ⟨by simp, by simp, hb, h.symm⟩
    · exact ⟨by simp, by simp, hb, h.symm⟩
  · cases hs : n.state <;> simp [hs, hb] at h

/-- A `wait` that returns either detaches the source at END or records the
current `write_number` for an attached source that had not seen it. -/
theorem Node.wait_ok {n n' : Node} {i : Nat} (h : n.wait i = NodeResult.ok n') :
    ∃ s, n.sources[i]? = some s ∧ s.attached = true ∧
      ((n.state = NodeState.END ∧ n' = n.detach i s) ∨
        (n.state ≠ NodeState.END ∧ s.last_seen_write_number < n.write_number ∧
          n' = { n with
            sources := n.sources.set i
              { s with last_seen_write_number := n.write_number, holding := true } })) := by
  unfold Node.wait at h
  cases hs : n.sources[i]? with
  | none => simp [hs] at h
  | some s =>
    simp only [hs] at h
    by_cases ha : s.attached = false
    · simp [ha] at h
    · have ha' : s.attached = true := by simpa using ha
      rw [if_neg ha] at h
      by_cases he : n.state = NodeState.END
      · rw [if_pos he] at h
        injection h with h
        exact ⟨s, rfl, ha', Or.inl ⟨he, h.symm⟩⟩
      · rw [if_neg he] at h
        by_cases hl : s.last_seen_write_number < n.write_number
        · rw [if_pos hl] at h
          injection h with h
          exact ⟨s, rfl, ha', Or.inr ⟨he, hl, h.symm⟩⟩
        · rw [if_neg hl] at h
          cases h

/-- A `post` that succeeds releases an attached source that was holding the
sample and decrements `read_barrier`. -/
theorem Node.post_ok {n n' : Node} {i : Nat} (h : n.post i = NodeResult.ok n') :
    ∃ s, n.sources[i]? = some s ∧ s.attached = true ∧ s.holding = true ∧
      n' = { n with
        read_barrier := n.read_barrier - 1
        sources := n.sources.set i { s with holding := false } } := by
  unfold Node.post at h
  cases hs : n.sources[i]? with
  | none => simp [hs] at h
  | some s =>
    simp only [hs] at h
    by_cases ha : s.attached = true ∧ s.holding = true
    · rw [if_pos ha] at h
      injection h with h
      exact ⟨s, rfl, ha.1, ha.2, h.symm⟩
    · rw [if_neg ha] at h
      cases h

/-- A `disconnect` that succeeds detaches an attached source. -/
theorem Node.disconnect_ok {n n' : Node} {i : Nat} (h : n.disconnect i = NodeResult.ok n') :
    ∃ s, n.sources[i]? = some s ∧ s.attached = true ∧ n' = n.detach i s := by
  unfold Node.disconnect at h
  cases hs : n.sources[i]? with
  | none => simp [hs] at h
  | some s =>
    simp only [hs] at h
    by_cases ha : s.attached = true
    · rw [if_pos ha] at h
      injection h with h
      exact ⟨s, rfl, ha, h.symm⟩
    · rw [if_neg ha] at h
      cases h

/-- One step either takes the result of a successful operation or leaves the
node as it is. -/
theorem Node.step_cases (n : Node) (op : NodeOp) :
    n.apply op = NodeResult.ok (n.step op) ∨ n.step op = n := by
  unfold Node.step
  cases h : n.apply op with
  | ok n' => exact Or.inl rfl
  | blocked => exact Or.inr rfl
  | error e => exact Or.inr rfl

/-- One operation moves the state of a node forward in the order of the states,
or leaves it, and leaves END. -/
theorem Node.step_state_monotone (n : Node) (op : NodeOp) :
    n.state.rank ≤ (n.step op).state.rank ∧
      (n.state = NodeState.END → (n.step op).state = NodeState.END) := by
  rcases Node.step_cases n op with h | h
  · cases op with
    | bind =>
      obtain ⟨h1, h2⟩ := Node.bind_ok h
      rw [h2, h1]
      simp [NodeState.rank]
    | publish =>
      obtain ⟨h1, h2, _, h4⟩ := Node.publish_ok h
      rw [h4]
      refine ⟨?_, fun he => absurd he h2⟩
      cases hs : n.state <;> simp_all [NodeState.rank]
    | attach =>
      simp only [Node.apply, Node.attach, NodeResult.ok.injEq] at h
      rw [← h]
      exact ⟨le_refl _, fun he => he⟩
    | wait i =>
      obtain ⟨s, _, _, h3 | h3⟩ := Node.wait_ok h
      · rw [h3.2]
        exact ⟨le_refl _, fun he => he⟩
      · rw [h3.2.2]
        exact ⟨le_refl _, fun he => he⟩
    | post i =>
      obtain ⟨s, _, _, _, h4⟩ := Node.post_ok h
      rw [h4]
      exact ⟨le_refl _, fun he => he⟩
    | disconnect i =>
      obtain ⟨s, _, _, h3⟩ := Node.disconnect_ok h
      rw [h3]
      exact ⟨le_refl _, fun he => he⟩
    | close =>
      simp only [Node.apply, Node.close, NodeResult.ok.injEq] at h
      rw [← h]
      refine ⟨?_, fun _ => rfl⟩
      cases hs : n.state <;> simp [NodeState.rank]
  · rw [h]
    exact ⟨le_refl _, fun he => he⟩

/-- C6: under every sequence of node operations (bind, publish, attach, wait,
post, disconnect, close) the state of the node never moves backwards in the
order UNDEFINED < SINK_BOUND < SINK_PRESENT < END, and END is absorbing. -/
theorem node_state_monotone (n : Node) (ops : List NodeOp) :
    n.state.rank ≤ (n.run ops).state.rank ∧
      (n.state = NodeState.END → (n.run ops).state = NodeState.END) := by
  induction ops generalizing n with
  | nil => simp [Node.run]
  | cons op ops ih =>
    have h1 := Node.step_state_monotone n op
    have h2 := ih (n.step op)
    simp only [Node.run, List.foldl_cons] at h2 ⊢
    exact ⟨le_trans h1.1 h2.1, fun h => h2.2 (h1.2 h)⟩

/-! ### Publication barrier -/

/-- Replacing the element at an index changes a count by the difference of the
old and the new element. -/
theorem countP_set_add {α : Type} (p : α → Bool) (b : α) :
    ∀ (l : List α) (i : Nat) (a : α), l[i]? = some a →
      (l.set i b).countP p + (if p a then 1 else 0) = l.countP p + (if p b then 1 else 0) := by
  intro l
  induction l with
  | nil =>
    intro i a h
    simp at h
  | cons x xs ih =>
    intro i a h
    cases i with
    | zero =>
      simp only [List.getElem?_cons_zero, Option.some.injEq] at h
      subst h
      simp only [List.set_cons_zero, List.countP_cons]
      omega
    | succ j =>
      simp only [List.getElem?_cons_succ] at h
      have hj := ih j a h
      simp only [List.set_cons_succ, List.countP_cons]
      omega

/-- Replacing an element by one that counts the same keeps the count. -/
theorem countP_set_same {α : Type} (p : α → Bool) (l : List α) (i : Nat) (a b : α)
    (h : l[i]? = some a) (hab : p b = p a) : (l.set i b).countP p = l.countP p := by
  have hc := countP_set_add p b l i a h
  rw [hab] at hc
  omega

/-- Replacing a counted element by one that is not counted lowers the count by
one. -/
theorem countP_set_drop {α : Type} (p : α → Bool) (l : List α) (i : Nat) (a b : α)
    (h : l[i]? = some a) (ha : p a = true) (hb : p b = false) :
    (l.set i b).countP p = l.countP p - 1 := by
  have hc := countP_set_add p b l i a h
  rw [ha, hb] at hc
  simp only [if_true, Bool.false_eq_true, if_false] at hc
  omega

/-- The counters of a fresh node agree with its (no) sources. -/
theorem Node.inv_fresh : Node.fresh.Inv :=
  ⟨rfl, rfl, fun s hs => by simp [Node.fresh] at hs, fun s hs => by simp [Node.fresh] at hs⟩

/-- Beginning a publication cycle keeps the counters in agreement: every
attached source owes a release for the new sample. -/
theorem Node.inv_publish {n : Node} (h : n.Inv) (hb : n.read_barrier = 0) :
    ({ n with
        state := NodeState.SINK_PRESENT
        read_barrier := n.source_ref_count
        write_number := n.write_number + 1 } : Node).Inv := by
  have hnone : ∀ s ∈ n.sources, ¬ SourceSlot.owes n.write_number s = true := by
    have h0 := h.barrier
    rw [hb] at h0
    exact List.countP_eq_zero.1 h0.symm
  refine ⟨?_, h.refs, ?_, ?_⟩
  · show n.source_ref_count = n.sources.countP (SourceSlot.owes (n.write_number + 1))
    rw [h.refs]
    apply List.countP_congr
    intro s hs
    have hle := h.seen s hs
    have hlt : s.last_seen_write_number < n.write_number + 1 := by omega
    simp [SourceSlot.owes, hlt]
  · intro s hs
    have hle := h.seen s hs
    show s.last_seen_write_number ≤ n.write_number + 1
    omega
  · intro s hs hh
    exfalso
    apply hnone s hs
    have ha := (h.held s hs hh).1
    simp [SourceSlot.owes, ha, hh]

/-- Attaching a source keeps the counters in agreement: the new source owes
nothing for the sample already published. -/
theorem Node.inv_attach {n : Node} (h : n.Inv) :
    ({ n with
        source_ref_count := n.source_ref_count + 1
        sources := n.sources ++ [⟨true, n.write_number, false⟩] } : Node).Inv := by
  refine ⟨?_, ?_, ?_, ?_⟩
  · show n.read_barrier =
      (n.sources ++ [(⟨true, n.write_number, false⟩ : SourceSlot)]).countP
        (SourceSlot.owes n.write_number)
    rw [List.countP_append, ← h.barrier]
    simp [SourceSlot.owes]
  · show n.source_ref_count + 1 =
      (n.sources ++ [(⟨true, n.write_number, false⟩ : SourceSlot)]).countP
        (fun s => s.attached)
    rw [List.countP_append, ← h.refs]
    simp
  · intro s hs
    simp only [List.mem_append, List.mem_singleton] at hs
    rcases hs with hs | hs
    · exact h.seen s hs
    · subst hs
      exact le_refl _
  · intro s hs hh
    simp only [List.mem_append, List.mem_singleton] at hs
    rcases hs with hs | hs
    · exact h.held s hs hh
    · subst hs
      cases hh

/-- A `wait` that returns READY keeps the counters in agreement: the source
owed a release before and owes it still. -/
theorem Node.inv_wait_ready {n : Node} (h : n.Inv) {i : Nat} {s : SourceSlot}
    (hs : n.sources[i]? = some s) (ha : s.attached = true)
    (hl : s.last_seen_write_number < n.write_number) :
    ({ n with
        sources := n.sources.set i
          { s with last_seen_write_number := n.write_number, holding := true } } : Node).Inv := by
  refine ⟨?_, ?_, ?_, ?_⟩
  · show n.read_barrier = (n.sources.set i _).countP (SourceSlot.owes n.write_number)
    rw [countP_set_same _ _ _ _ _ hs (by simp [SourceSlot.owes, ha, hl])]
    exact h.barrier
  · show n.source_ref_count = (n.sources.set i _).countP (fun s => s.attached)
    rw [countP_set_same (fun x : SourceSlot => x.attached) n.sources i s
      { s with last_seen_write_number := n.write_number, holding := true } hs rfl]
    exact h.refs
  · intro x hx
    rcases List.mem_or_eq_of_mem_set hx with hx | hx
    · exact h.seen x hx
    · subst hx
      exact le_refl _
  · intro x hx hh
    rcases List.mem_or_eq_of_mem_set hx with hx | hx
    · exact h.held x hx hh
    · subst hx
      exact ⟨ha, rfl⟩

/-- A `post` keeps the counters in agreement: the source owed a release and
owes none after it. -/
theorem Node.inv_post {n : Node} (h : n.Inv) {i : Nat} {s : SourceSlot}
    (hs : n.sources[i]? = some s) (ha : s.attached = true) (hh : s.holding = true) :
    ({ n with
        read_barrier := n.read_barrier - 1
        sources := n.sources.set i { s with holding := false } } : Node).Inv := by
  have hmem : s ∈ n.sources := List.getElem?_mem hs
  have hseen : s.last_seen_write_number = n.write_number := (h.held s hmem hh).2
  refine ⟨?_, ?_, ?_, ?_⟩
  · show n.read_barrier - 1 = (n.sources.set i _).countP (SourceSlot.owes n.write_number)
    rw [countP_set_drop _ _ _ _ _ hs (by simp [SourceSlot.owes, ha, hh])
      (by simp [SourceSlot.owes, hseen]), ← h.barrier]
  · show n.source_ref_count = (n.sources.set i _).countP (fun s => s.attached)
    rw [countP_set_same (fun x : SourceSlot => x.attached) n.sources i s
      { s with holding := false } hs rfl]
    exact h.refs
  · intro x hx
    rcases List.mem_or_eq_of_mem_set hx with hx | hx
    · exact h.seen x hx
    · subst hx
      exact h.seen s hmem
  · intro x hx hxh
    rcases List.mem_or_eq_of_mem_set hx with hx | hx
    · exact h.held x hx hxh
    · subst hx
      cases hxh

/-- Detaching a source keeps the counters in agreement: `read_barrier` drops
when the source still owed a release. -/
theorem Node.inv_detach {n : Node} (h : n.Inv) {i : Nat} {s : SourceSlot}
    (hs : n.sources[i]? = some s) (ha : s.attached = true) : (n.detach i s).Inv := by
  have hmem : s ∈ n.sources := List.getElem?_mem hs
  refine ⟨?_, ?_, ?_, ?_⟩
  · show (if s.owes n.write_number then n.read_barrier - 1 else n.read_barrier) =
      (n.sources.set i _).countP (SourceSlot.owes n.write_number)
    have hnew : SourceSlot.owes n.write_number
        { s with attached := false, holding := false } = false := by
      simp [SourceSlot.owes]
    by_cases ho : s.owes n.write_number = true
    · rw [if_pos ho, countP_set_drop _ _ _ _ _ hs ho hnew, ← h.barrier]
    · rw [if_neg ho, countP_set_same _ _ _ _ _ hs (by rw [hnew]; simpa using ho)]
      exact h.barrier
  · show n.source_ref_count - 1 = (n.sources.set i _).countP (fun s => s.attached)
    rw [countP_set_drop _ _ _ _ _ hs ha rfl, ← h.refs]
  · intro x hx
    rcases List.mem_or_eq_of_mem_set hx with hx | hx
    · exact h.seen x hx
    · subst hx
      exact h.seen s hmem
  · intro x hx hxh
    rcases List.mem_or_eq_of_mem_set hx with hx | hx
    · exact h.held x hx hxh
    · subst hx
      cases hxh

/-- Every operation keeps the counters of the node in agreement with its
sources. -/
theorem Node.inv_step {n : Node} (h : n.Inv) (op : NodeOp) : (n.step op).Inv := by
  rcases Node.step_cases n op with hok | hsame
  · cases op with
    | bind =>
      obtain ⟨_, h2⟩ := Node.bind_ok hok
      rw [h2]
      exact ⟨h.barrier, h.refs, h.seen, h.held⟩
    | publish =>
      obtain ⟨_, _, hb, h4⟩ := Node.publish_ok hok
      rw [h4]
      exact Node.inv_publish h hb
    | attach =>
      simp only [Node.apply, Node.attach, NodeResult.ok.injEq] at hok
      rw [← hok]
      exact Node.inv_attach h
    | wait i =>
      obtain ⟨s, hs, ha, h3 | h3⟩ := Node.wait_ok hok
      · rw [h3.2]
        exact Node.inv_detach h hs ha
      · rw [h3.2.2]
        exact Node.inv_wait_ready h hs ha h3.2.1
    | post i =>
      obtain ⟨s, hs, ha, hh, h4⟩ := Node.post_ok hok
      rw [h4]
      exact Node.inv_post h hs ha hh
    | disconnect i =>
      obtain ⟨s, hs, ha, h3⟩ := Node.disconnect_ok hok
      rw [h3]
      exact Node.inv_detach h hs ha
    | close =>
      simp only [Node.apply, Node.close, NodeResult.ok.injEq] at hok
      rw [← hok]
      exact ⟨h.barrier, h.refs, h.seen, h.held⟩
  · rw [hsame]
    exact h

/-- Every sequence of operations keeps the counters of the node in agreement
with its sources. -/
theorem Node.inv_run (ops : List NodeOp) : ∀ {n : Node}, n.Inv → (n.run ops).Inv := by
  induction ops with
  | nil =>
    intro n h
    exact h
  | cons op ops ih =>
    intro n h
    exact ih (Node.inv_step h op)

/-- C7: in every execution of the protocols (any sequence of operations on a
fresh node), when the sink begins the next publication cycle (latches
`read_barrier` and increments `write_number`), `read_barrier` is 0 and every
source is detached or has seen and released the current sample: none that was
counted in the last barrier still owes its release. -/
theorem publication_waits_for_all_readers (ops : List NodeOp) (n' : Node)
    (h : (Node.fresh.run ops).publish = NodeResult.ok n') :
    (Node.fresh.run ops).read_barrier = 0 ∧
    (∀ s ∈ (Node.fresh.run ops).sources,
      s.attached = false ∨
        (s.last_seen_write_number = (Node.fresh.run ops).write_number ∧ s.holding = false)) ∧
    n'.write_number = (Node.fresh.run ops).write_number + 1 ∧
    n'.read_barrier = (Node.fresh.run ops).source_ref_count := by
  have hinv : (Node.fresh.run ops).Inv := Node.inv_run ops Node.inv_fresh
  obtain ⟨_, _, hb, hn⟩ := Node.publish_ok h
  refine ⟨hb, ?_, by rw [hn], by rw [hn]⟩
  intro s hs
  have h0 := hinv.barrier
  rw [hb] at h0
  have hno := List.countP_eq_zero.1 h0.symm s hs
  have hle := hinv.seen s hs
  by_cases ha : s.attached = true
  · right
    simp only [SourceSlot.owes, ha, Bool.true_and, Bool.or_eq_true, decide_eq_true_eq,
      not_or, not_lt, Bool.not_eq_true] at hno
    exact ⟨le_antisymm hle hno.1, hno.2⟩
  · left
    simpa using ha

/-- C7 at a concrete execution: bind, one source attaches, a first sample is
published, the source waits and posts, and the sink begins the next cycle. -/
theorem publication_waits_for_all_readers_witness :
    (Node.fresh.run [NodeOp.bind, NodeOp.attach, NodeOp.publish, NodeOp.wait 0,
        NodeOp.post 0]).read_barrier = 0 ∧
    (∀ s ∈ (Node.fresh.run [NodeOp.bind, NodeOp.attach, NodeOp.publish, NodeOp.wait 0,
        NodeOp.post 0]).sources,
      s.attached = false ∨
        (s.last_seen_write_number = (Node.fresh.run [NodeOp.bind, NodeOp.attach,
          NodeOp.publish, NodeOp.wait 0, NodeOp.post 0]).write_number ∧ s.holding = false)) ∧
    (⟨NodeState.SINK_PRESENT, 1, 1, 2, [⟨true, 1, false⟩]⟩ : Node).write_number =
      (Node.fresh.run [NodeOp.bind, NodeOp.attach, NodeOp.publish, NodeOp.wait 0,
        NodeOp.post 0]).write_number + 1 ∧
    (⟨NodeState.SINK_PRESENT, 1, 1, 2, [⟨true, 1, false⟩]⟩ : Node).read_barrier =
      (Node.fresh.run [NodeOp.bind, NodeOp.attach, NodeOp.publish, NodeOp.wait 0,
        NodeOp.post 0]).source_ref_count :=
  publication_waits_for_all_readers
    [NodeOp.bind, NodeOp.attach, NodeOp.publish, NodeOp.wait 0, NodeOp.post 0]
    ⟨NodeState.SINK_PRESENT, 1, 1, 2, [⟨true, 1, false⟩]⟩ (by decide)

/-! ### Shared-memory client -/

/-- C8: for every endpoint name `n` the client derives the segment name
`n ++ "_sh_mem"`, and `findSharedObject` returns exactly when the segment of
that name can be opened. -/
theorem smclient_arena_name {SyncType : Type} (n : String) (found : Bool)
    (sys : SharedMemory SyncType) :
    (SMClient.new n found : SMClient SyncType).shmem_name = n ++ "_sh_mem" ∧
    ((∃ c, (SMClient.new n found : SMClient SyncType).findSharedObject sys =
        FindOutcome.returned c) ↔
      ∃ segment, sys (n ++ "_sh_mem") = Except.ok segment) := by
  refine ⟨rfl, ?_⟩
  cases h : sys (n ++ "_sh_mem") with
  | ok segment => simp [SMClient.findSharedObject, SMClient.new, h]
  | error what => simp [SMClient.findSharedObject, SMClient.new, h]

/-- C9, on the claim as stated: for the endpoint name "raw" the object name is
"raw_sh_obj", not "raw_obj", and an object stored as "raw_obj" in the segment is
not found. -/
theorem smclient_payload_name_not_obj :
    (SMClient.new "raw" false : SMClient Nat).shobj_name ≠ "raw" ++ "_obj" ∧
    (((SMClient.new "raw" false : SMClient Nat).findSharedObject
        (fun _ => Except.ok (fun k => if k = "raw" ++ "_obj" then some 7 else none))).client?.map
      (fun c => c.shared_object)) = some none := by
  decide

/-- C9 (amended): for every endpoint name `n` the client derives the object
name `n ++ "_sh_obj"`, and this is the name `findSharedObject` looks up in the
opened segment. -/
theorem smclient_payload_name {SyncType : Type} (n : String) (found : Bool)
    (sys : SharedMemory SyncType) (segment : String → Option SyncType) :
    (SMClient.new n found : SMClient SyncType).shobj_name = n ++ "_sh_obj" ∧
    (sys (n ++ "_sh_mem") = Except.ok segment →
      ((SMClient.new n found : SMClient SyncType).findSharedObject sys).client?.map
        (fun c => c.shared_object) = some (segment (n ++ "_sh_obj"))) := by
  refine ⟨rfl, fun h => ?_⟩
  simp [SMClient.findSharedObject, SMClient.new, h, FindOutcome.client?]

/-- C9 (amended) at a concrete input: the segment "raw_sh_mem" holds the object
"raw_sh_obj", and the client for "raw" finds it. -/
theorem smclient_payload_name_witness :
    ((SMClient.new "raw" false : SMClient Nat).findSharedObject
        (fun _ => Except.ok (fun k => if k = "raw_sh_obj" then some 7 else none))).client?.map
      (fun c => c.shared_object) =
        some ((fun k => if k = "raw_sh_obj" then some 7 else none) ("raw" ++ "_sh_obj")) :=
  (smclient_payload_name "raw" false
    (fun _ => Except.ok (fun k => if k = "raw_sh_obj" then some 7 else none))
    (fun k => if k = "raw_sh_obj" then some 7 else none)).2 rfl

/-- C10: when the segment of the client cannot be opened, `findSharedObject`
does not return: it writes its diagnostic and ends the process with
`EXIT_FAILURE`; in particular it never returns with `shared_object_found` set. -/
theorem findSharedObject_open_failure_is_fatal {SyncType : Type} (c : SMClient SyncType)
    (sys : SharedMemory SyncType) (what : String)
    (h : sys c.shmem_name = Except.error what) :
    (∃ cerr, c.findSharedObject sys = FindOutcome.exited EXIT_FAILURE cerr ∧
      ("Error: " ++ what ++ "\n") ∈ cerr) ∧
    EXIT_FAILURE ≠ 0 ∧
    ∀ c', c.findSharedObject sys ≠ FindOutcome.returned c' := by
  have hexit : c.findSharedObject sys = FindOutcome.exited EXIT_FAILURE
      [ "Error: " ++ what ++ "\n",
        "  This is likely due to the SOURCE, \"" ++ c.name ++ "\", not being started.\n",
        "  Did you start the SOURCE, \"" ++ c.name ++ "\", before staring this client?\n" ] := by
    simp only [SMClient.findSharedObject, h]
  refine ⟨⟨_, hexit, List.mem_cons_self _ _⟩, by decide, ?_⟩
  intro c' hc
  rw [hexit] at hc
  cases hc

/-- C10 at a concrete input: no segment exists, the client for "raw" exits. -/
theorem findSharedObject_open_failure_is_fatal_witness :
    (∃ cerr, (SMClient.new "raw" false : SMClient Nat).findSharedObject
        (fun _ => Except.error "No such file or directory") =
          FindOutcome.exited EXIT_FAILURE cerr ∧
      ("Error: " ++ "No such file or directory" ++ "\n") ∈ cerr) ∧
    EXIT_FAILURE ≠ 0 ∧
    ∀ c', (SMClient.new "raw" false : SMClient Nat).findSharedObject
        (fun _ => Except.error "No such file or directory") ≠ FindOutcome.returned c' :=
  findSharedObject_open_failure_is_fatal (SMClient.new "raw" false)
    (fun _ => Except.error "No such file or directory") "No such file or directory" rfl

/-! ### Frame masker -/

/-- C11: with a configured mask of the size of the frame, `filter` returns a
frame of the same size in which a pixel whose mask pixel is non-zero equals the
input pixel and every other pixel is 0; with no mask configured it returns the
input frame unchanged. -/
theorem frame_masker_filter_masks {α : Type} [Zero α] (m : FrameMasker) (frame : Mat α) :
    (m.mask_set = true → m.roi_mask.size = frame.size →
      ∃ out, (m.filter frame).returned = Except.ok out ∧ out.size = frame.size ∧
        ∀ r c, r < frame.rows → c < frame.cols →
          (m.roi_mask.pixel r c ≠ 0 → out.pixel r c = frame.pixel r c) ∧
          (m.roi_mask.pixel r c = 0 → out.pixel r c = 0)) ∧
    (m.mask_set = false → (m.filter frame).returned = Except.ok frame) := by
  refine ⟨fun hset hsize => ?_, fun hset => ?_⟩
  · refine ⟨frame.setTo 0 (m.roi_mask.eqScalar 0), ?_, rfl, ?_⟩
    · simp [FrameMasker.filter, hset, hsize]
    · intro r c _ _
      constructor
      · intro hne
        simp [Mat.setTo, Mat.eqScalar, hne]
      · intro h0
        simp [Mat.setTo, Mat.eqScalar, h0]
  · simp [FrameMasker.filter, hset]

/-- C11 at a concrete input: a 1x2 frame with pixels 7 and 9 under the mask
(255, 0) comes out as (7, 0). -/
theorem frame_masker_filter_masks_witness :
    ∃ out, (((FrameMasker.new "raw" "filt" false false ⟨0, 0, fun _ _ => 0⟩).setMask
        ⟨1, 2, fun _ c => if c = 0 then 255 else 0⟩).filter
          (⟨1, 2, fun _ c => if c = 0 then 7 else 9⟩ : Mat Nat)).returned = Except.ok out ∧
      out.size = (⟨1, 2, fun _ c => if c = 0 then 7 else 9⟩ : Mat Nat).size ∧
      ∀ r c, r < 1 → c < 2 →
        ((if c = 0 then 255 else 0) ≠ 0 → out.pixel r c = if c = 0 then 7 else 9) ∧
        ((if c = 0 then 255 else 0) = 0 → out.pixel r c = 0) :=
  (frame_masker_filter_masks
    ((FrameMasker.new "raw" "filt" false false ⟨0, 0, fun _ _ => 0⟩).setMask
      ⟨1, 2, fun _ c => if c = 0 then 255 else 0⟩)
    (⟨1, 2, fun _ c => if c = 0 then 7 else 9⟩ : Mat Nat)).1 rfl rfl

/-- C12, at the failing input: a masker constructed with `invert_mask = true`
has `invert_mask` false, and `filter` keeps the pixel under the non-zero mask
pixel (7) and zeroes the other one (9), as it does without inversion. -/
theorem frame_masker_ignores_invert_mask :
    (FrameMasker.new "raw" "filt" true false ⟨0, 0, fun _ _ => 0⟩).invert_mask = false ∧
    ((((FrameMasker.new "raw" "filt" true false ⟨0, 0, fun _ _ => 0⟩).setMask
        ⟨1, 2, fun _ c => if c = 0 then 255 else 0⟩).filter
          (⟨1, 2, fun _ c => if c = 0 then 7 else 9⟩ : Mat Nat)).frame.pixel 0 0 = 7) ∧
    ((((FrameMasker.new "raw" "filt" true false ⟨0, 0, fun _ _ => 0⟩).setMask
        ⟨1, 2, fun _ c => if c = 0 then 255 else 0⟩).filter
          (⟨1, 2, fun _ c => if c = 0 then 7 else 9⟩ : Mat Nat)).frame.pixel 0 1 = 0) := by
  decide

/-- C13: with a configured mask, a frame of another size makes `filter` raise
the bad-size error and leaves the frame as it was; a frame of the size of the
mask never raises it. -/
theorem frame_masker_bad_size {α : Type} [Zero α] (m : FrameMasker) (frame : Mat α)
    (hset : m.mask_set = true) :
    (m.roi_mask.size ≠ frame.size →
      (∃ message, (m.filter frame).returned = Except.error (CvError.StsBadSize message)) ∧
      (m.filter frame).frame = frame) ∧
    (m.roi_mask.size = frame.size →
      ∀ message, (m.filter frame).returned ≠ Except.error (CvError.StsBadSize message)) := by
  refine ⟨fun hne => ?_, fun heq message => ?_⟩
  · simp [FrameMasker.filter, hset, hne]
  · simp [FrameMasker.filter, hset, heq]

/-- C13 at a concrete input: a 2x2 frame against a 1x2 mask. -/
theorem frame_masker_bad_size_witness :
    (∃ message, (((FrameMasker.new "raw" "filt" false false ⟨0, 0, fun _ _ => 0⟩).setMask
        ⟨1, 2, fun _ _ => 255⟩).filter (⟨2, 2, fun _ _ => 7⟩ : Mat Nat)).returned =
          Except.error (CvError.StsBadSize message)) ∧
    (((FrameMasker.new "raw" "filt" false false ⟨0, 0, fun _ _ => 0⟩).setMask
        ⟨1, 2, fun _ _ => 255⟩).filter (⟨2, 2, fun _ _ => 7⟩ : Mat Nat)).frame =
      ⟨2, 2, fun _ _ => 7⟩ :=
  (frame_masker_bad_size
    ((FrameMasker.new "raw" "filt" false false ⟨0, 0, fun _ _ => 0⟩).setMask
      ⟨1, 2, fun _ _ => 255⟩)
    (⟨2, 2, fun _ _ => 7⟩ : Mat Nat) rfl).1 (by decide)

/-! ### Recorder source lists -/

/-- C14, at the failing input: for the position sources `a b a` the list handed
to the recorder still holds `a` twice and no warning is issued; only a repeat
next to its original (`a a b`) is removed and warned about. -/
theorem recorder_sources_keeps_separated_duplicates :
    recorder_sources (some ["a", "b", "a"]) = ⟨["a", "b", "a"], false⟩ ∧
    ¬ (recorder_sources (some ["a", "b", "a"])).names.Nodup ∧
    recorder_sources (some ["a", "a", "b"]) = ⟨["a", "b"], true⟩ := by
  decide

/-! ### Calibrator command line -/

/-- The option checks of a command line that gets past the earlier ones end in
the check of the pair `config-file`, `config-key`. -/
theorem calibrator_parse_of_reaches (cwd : String) (o : CalibratorOptions)
    (h : o.reachesConfigCheck = true) :
    calibrator_parse cwd o =
      if (o.config_file.isSome ∧ o.config_key.isNone) ∨
          (o.config_file.isNone ∧ o.config_key.isSome) then
        ParseEnd.exit (-1) [pairingError]
      else
        ParseEnd.proceed
          { type := o.type.getD "", source := o.source.getD "",
            save_path := o.calibration_path.getD cwd,
            homography_method := o.homography_method.getD "robust",
            camera_model := o.camera_model.getD "pinhole",
            chessboard_width := o.chessboard_width.getD 6,
            chessboard_height := o.chessboard_height.getD 9,
            square_length := o.square_width.getD 1,
            config_file := o.config_file.getD "", config_key := o.config_key.getD "",
            config_used := o.config_file.isSome } := by
  simp only [CalibratorOptions.reachesConfigCheck, Bool.and_eq_true, Bool.not_eq_true',
    Bool.or_eq_true, decide_eq_true_eq, beq_iff_eq, Bool.and_eq_false_imp,
    Bool.or_eq_false_iff, decide_eq_false_iff_not] at h
  obtain ⟨⟨⟨⟨⟨hhelp, hver⟩, htype⟩, hsrc⟩, hmeth⟩, hboard⟩ := h
  have htype' : o.type.isNone = false := by
    cases ht : o.type <;> simp_all
  have hsrc' : o.source.isNone = false := by
    cases hs : o.source <;> simp_all
  have hmeth' : (homo_meth_hash (o.homography_method.getD "robust")).isNone = false := by
    cases hm : homo_meth_hash (o.homography_method.getD "robust") <;> simp_all
  have hboard' : ¬ (type_hash (o.type.getD "") = 'a' ∧
      (o.chessboard_height.getD 9 < 2 ∨ o.chessboard_width.getD 6 < 2)) := by
    rintro ⟨ha, hlt⟩
    have := hboard ha
    omega
  simp only [calibrator_parse, hhelp, hver, htype', hsrc', hmeth', Bool.false_eq_true,
    if_false, if_neg hboard']

/-- C15, on the claim as stated: `--help -c cfg.toml` supplies `config-file`
without `config-key`, and the program prints the usage and returns 0 with no
pairing error; `foo raw -c cfg.toml -k key` supplies both, `config_used` is set,
and the program returns -1 for the invalid TYPE without creating a component or
calling `configure`. -/
theorem calibrator_help_before_pairing_check :
    ((calibrator_main "/tmp"
      { CalibratorOptions.positional "camera" "raw" with
        help := true, config_file := some "cfg.toml" } none none 0 []).finish =
      Finish.returned 0 ∧
    pairingError ∉ (calibrator_main "/tmp"
      { CalibratorOptions.positional "camera" "raw" with
        help := true, config_file := some "cfg.toml" } none none 0 []).cerr) ∧
    ((calibrator_main "/tmp"
      { CalibratorOptions.positional "foo" "raw" with
        config_file := some "cfg.toml", config_key := some "key" } none none 0 []).config_used =
      true ∧
    (calibrator_main "/tmp"
      { CalibratorOptions.positional "foo" "raw" with
        config_file := some "cfg.toml", config_key := some "key" } none none 0 []).configured =
      false ∧
    (calibrator_main "/tmp"
      { CalibratorOptions.positional "foo" "raw" with
        config_file := some "cfg.toml", config_key := some "key" } none none 0 []).finish =
      Finish.returned (-1)) := by
  decide

/-- The option checks of a command line that gets past the earlier ones and
supplies both or neither of `config-file` and `config-key` let the program go
on, with `config_used` set exactly when `config-file` is supplied. -/
theorem calibrator_parse_proceeds (cwd : String) (o : CalibratorOptions)
    (h : o.reachesConfigCheck = true) (hpair : o.config_file.isSome = o.config_key.isSome) :
    ∃ s, calibrator_parse cwd o = ParseEnd.proceed s ∧
      s.config_used = o.config_file.isSome := by
  have hp := calibrator_parse_of_reaches cwd o h
  cases hf : o.config_file <;> cases hk : o.config_key <;> simp [hf, hk] at hpair
  · simp only [hf, hk] at hp
    exact ⟨_, by simpa using hp, rfl⟩
  · simp only [hf, hk] at hp
    exact ⟨_, by simpa using hp, rfl⟩

/-- C15 (amended): on every command line that gets past the checks made before
it (help, version, TYPE, SOURCE, homography-method, chessboard size): when
exactly one of `config-file` and `config-key` is supplied the program gives the
pairing error, returns -1, creates no component and does not call `configure`;
`config_used` is set exactly when both are supplied; `configure` is called only
when both are supplied, and, when the program creates its component, exactly
when both are supplied: then an exception of `configure` makes the program
return -1, and otherwise what `configure` would do has no effect on the run. -/
theorem calibrator_config_pairing (cwd : String) (o : CalibratorOptions)
    (configure generateSavePath : Option Exn) (quit : Nat) (script : List (Tick Bool))
    (h : o.reachesConfigCheck = true) :
    (o.config_file.isSome ≠ o.config_key.isSome →
      (calibrator_main cwd o configure generateSavePath quit script).finish =
        Finish.returned (-1) ∧
      (calibrator_main cwd o configure generateSavePath quit script).cerr = [pairingError] ∧
      (calibrator_main cwd o configure generateSavePath quit script).component = none ∧
      (calibrator_main cwd o configure generateSavePath quit script).configured = false) ∧
    ((calibrator_main cwd o configure generateSavePath quit script).config_used = true ↔
      (o.config_file.isSome = true ∧ o.config_key.isSome = true)) ∧
    ((calibrator_main cwd o configure generateSavePath quit script).configured = true →
      (o.config_file.isSome = true ∧ o.config_key.isSome = true)) ∧
    ((calibrator_main cwd o configure generateSavePath quit script).component.isSome = true →
      ((calibrator_main cwd o configure generateSavePath quit script).configured = true ↔
        (o.config_file.isSome = true ∧ o.config_key.isSome = true)) ∧
      ((o.config_file.isSome = true ∧ o.config_key.isSome = true) →
        ∀ e, configure = some e →
          (calibrator_main cwd o configure generateSavePath quit script).finish =
            Finish.returned (-1)) ∧
      (¬ (o.config_file.isSome = true ∧ o.config_key.isSome = true) →
        (calibrator_main cwd o configure generateSavePath quit script).run =
          (calibrator_main cwd o none generateSavePath quit script).run)) := by
  by_cases hpair : o.config_file.isSome = o.config_key.isSome
  · obtain ⟨s, hs, hcu⟩ := calibrator_parse_proceeds cwd o h hpair
    have hboth : (o.config_file.isSome = true ∧ o.config_key.isSome = true) ↔
        s.config_used = true := by
      rw [hcu, ← hpair]
      simp
    rw [hboth]
    refine ⟨fun hne => absurd hpair hne, ?_, ?_, ?_⟩
    · simp only [calibrator_main, hs]
      cases calibrator_create s <;> simp
    · simp only [calibrator_main, hs]
      cases calibrator_create s <;> cases hu : s.config_used <;>
        simp [calibrator_configure, hu]
    · simp only [calibrator_main, hs]
      cases calibrator_create s with
      | created component =>
        intro _
        cases hu : s.config_used
        · simp [calibrator_configure, calibrator_main_run, hu]
        · refine ⟨by simp [calibrator_configure, hu], fun _ e he => ?_, fun hn => absurd rfl hn⟩
          subst he
          simp [calibrator_configure, calibrator_main_run]
      | exit status cerr => simp
      | uncaught => simp
  · have hp := calibrator_parse_of_reaches cwd o h
    cases hf : o.config_file <;> cases hk : o.config_key <;> simp [hf, hk] at hpair
    · simp only [hf, hk] at hp
      simp [calibrator_main, hp]
    · simp only [hf, hk] at hp
      simp [calibrator_main, hp]

/-- C15 (amended) at concrete inputs: `calibrate camera raw -c cfg.toml` gives the
pairing error, and in `calibrate camera raw -c cfg.toml -k key` the component is
created and `configure` is called. -/
theorem calibrator_config_pairing_witness :
    ((calibrator_main "/tmp"
        { CalibratorOptions.positional "camera" "raw" with config_file := some "cfg.toml" }
        none none 0 []).finish = Finish.returned (-1) ∧
      (calibrator_main "/tmp"
        { CalibratorOptions.positional "camera" "raw" with config_file := some "cfg.toml" }
        none none 0 []).cerr = [pairingError] ∧
      (calibrator_main "/tmp"
        { CalibratorOptions.positional "camera" "raw" with config_file := some "cfg.toml" }
        none none 0 []).component = none ∧
      (calibrator_main "/tmp"
        { CalibratorOptions.positional "camera" "raw" with config_file := some "cfg.toml" }
        none none 0 []).configured = false) ∧
    (calibrator_main "/tmp"
      { CalibratorOptions.positional "camera" "raw" with
        config_file := some "cfg.toml", config_key := some "key" }
      none none 0 []).configured = true :=
  ⟨(calibrator_config_pairing "/tmp"
      { CalibratorOptions.positional "camera" "raw" with config_file := some "cfg.toml" }
      none none 0 [] rfl).1 (by decide),
    ((calibrator_config_pairing "/tmp"
      { CalibratorOptions.positional "camera" "raw" with
        config_file := some "cfg.toml", config_key := some "key" }
      none none 0 [] rfl).2.2.2 (by decide)).1.2 (by decide)⟩

/-- C16, at the failing input: `calibrate camera raw --camera-model foo` ends
through the uncaught `std::out_of_range` of `camera_model_hash.at`, with no
diagnostic and no return value, while `--homography-method foo` gives its
diagnostic and returns -1. -/
theorem calibrator_unknown_camera_model_terminates :
    (calibrator_main "/tmp"
      { CalibratorOptions.positional "camera" "raw" with camera_model := some "foo" }
      none none 0 []).finish = Finish.terminated ∧
    (calibrator_main "/tmp"
      { CalibratorOptions.positional "camera" "raw" with camera_model := some "foo" }
      none none 0 []).cerr = [] ∧
    (calibrator_main "/tmp"
      { CalibratorOptions.positional "camera" "raw" with homography_method := some "foo" }
      none none 0 []).finish = Finish.returned (-1) ∧
    (calibrator_main "/tmp"
      { CalibratorOptions.positional "camera" "raw" with homography_method := some "foo" }
      none none 0 []).cerr = ["Unrecognized homography-method.\n"] := by
  decide

/-- C17, at the failing input: with `--chessboard-height 9 --chessboard-width 6`
the size passed to the camera calibrator is `cv::Size(9, 6)`, whose width is 9
and whose height is 6. -/
theorem calibrator_chessboard_size_swapped :
    ((calibrator_main "/tmp"
      { CalibratorOptions.positional "camera" "raw" with
        chessboard_height := some 9, chessboard_width := some 6 }
      none none 0 []).component.bind CalibratorComponent.chessboard_size?) =
        some { width := 9, height := 6 } ∧
    ((calibrator_main "/tmp"
      { CalibratorOptions.positional "camera" "raw" with
        chessboard_height := some 9, chessboard_width := some 6 }
      none none 0 []).component.bind CalibratorComponent.chessboard_size?) ≠
        some { width := 6, height := 9 } := by
  decide

/-! ### Position combiner -/

/-- One round of the averaging loop adds the scaled position of a source whose
position is valid. -/
theorem MeanPosition.average_position (m : MeanPosition) (sources : List Position2D)
    (k : Rat) (c pos : Position2D) (h : pos.position_valid = true) :
    (m.average sources k c pos).position = c.position.add (Vec2.scale k pos.position) := by
  unfold MeanPosition.average
  simp only [h, if_true]
  split_ifs <;> rfl

/-- One round of the averaging loop adds the scaled velocity of a source whose
velocity is valid. -/
theorem MeanPosition.average_velocity (m : MeanPosition) (sources : List Position2D)
    (k : Rat) (c pos : Position2D) (h : pos.velocity_valid = true) :
    (m.average sources k c pos).velocity = c.velocity.add (Vec2.scale k pos.velocity) := by
  unfold MeanPosition.average
  simp only [h, if_true]
  split_ifs <;> rfl

/-- Adding scaled vectors one by one adds the scaled sum. -/
theorem Vec2.add_scale_sum (k : Rat) (a p : Vec2) (l : List Vec2) :
    (a.add (Vec2.scale k p)).add (Vec2.scale k (Vec2.sum l)) =
      a.add (Vec2.scale k (Vec2.sum (p :: l))) := by
  ext <;> simp [Vec2.add, Vec2.scale, Vec2.sum] <;> ring

/-- The averaging loop over sources whose positions are all valid adds the
scaled sum of their positions. -/
theorem MeanPosition.foldl_position (m : MeanPosition) (sources : List Position2D) (k : Rat)
    (l : List Position2D) :
    ∀ c : Position2D, (∀ p ∈ l, p.position_valid = true) →
      (l.foldl (m.average sources k) c).position =
        c.position.add (Vec2.scale k (Vec2.sum (l.map (fun p => p.position)))) := by
  induction l with
  | nil =>
    intro c _
    ext <;> simp [Vec2.add, Vec2.scale, Vec2.sum]
  | cons p l ih =>
    intro c h
    have hp : p.position_valid = true := h p (List.mem_cons_self _ _)
    have hl : ∀ q ∈ l, q.position_valid = true := fun q hq => h q (List.mem_cons_of_mem _ hq)
    rw [List.foldl_cons, ih _ hl, MeanPosition.average_position m sources k c p hp,
      List.map_cons, Vec2.add_scale_sum]

/-- The averaging loop over sources whose velocities are all valid adds the
scaled sum of their velocities. -/
theorem MeanPosition.foldl_velocity (m : MeanPosition) (sources : List Position2D) (k : Rat)
    (l : List Position2D) :
    ∀ c : Position2D, (∀ p ∈ l, p.velocity_valid = true) →
      (l.foldl (m.average sources k) c).velocity =
        c.velocity.add (Vec2.scale k (Vec2.sum (l.map (fun p => p.velocity)))) := by
  induction l with
  | nil =>
    intro c _
    ext <;> simp [Vec2.add, Vec2.scale, Vec2.sum]
  | cons p l ih =>
    intro c h
    have hp : p.velocity_valid = true := h p (List.mem_cons_self _ _)
    have hl : ∀ q ∈ l, q.velocity_valid = true := fun q hq => h q (List.mem_cons_of_mem _ hq)
    rw [List.foldl_cons, ih _ hl, MeanPosition.average_velocity m sources k c p hp,
      List.map_cons, Vec2.add_scale_sum]

/-- The renormalization of the heading leaves position and velocity as the
averaging loop computed them. -/
theorem MeanPosition.combine_position_velocity (sqrt : Rat → Rat) (m : MeanPosition)
    (sources : List Position2D) (combined : Position2D) :
    (m.combine sqrt sources combined).position = (m.accumulate sources combined).position ∧
    (m.combine sqrt sources combined).velocity = (m.accumulate sources combined).velocity := by
  by_cases h : (m.accumulate sources combined).heading_valid = true <;>
    simp [MeanPosition.combine, h]

/-- C19: for a non-empty list of `n` sources whose positions (velocities) are
all valid, the combined position (velocity) is the arithmetic mean
`(1/n) * Σ` of the source positions (velocities), in exact arithmetic. -/
theorem mean_position_is_arithmetic_mean (sqrt : Rat → Rat) (m : MeanPosition)
    (sources : List Position2D) (combined : Position2D) (_hne : sources ≠ []) :
    ((∀ p ∈ sources, p.position_valid = true) →
      (m.combine sqrt sources combined).position =
        Vec2.scale (1 / (sources.length : Rat))
          (Vec2.sum (sources.map (fun p => p.position)))) ∧
    ((∀ p ∈ sources, p.velocity_valid = true) →
      (m.combine sqrt sources combined).velocity =
        Vec2.scale (1 / (sources.length : Rat))
          (Vec2.sum (sources.map (fun p => p.velocity)))) := by
  obtain ⟨hpos, hvel⟩ := MeanPosition.combine_position_velocity sqrt m sources combined
  refine ⟨fun h => ?_, fun h => ?_⟩
  · rw [hpos]
    unfold MeanPosition.accumulate
    rw [MeanPosition.foldl_position m sources _ sources _ h]
    ext <;> simp [Vec2.add]
  · rw [hvel]
    unfold MeanPosition.accumulate
    rw [MeanPosition.foldl_velocity m sources _ sources _ h]
    ext <;> simp [Vec2.add]

/-- C19 at a concrete input: the positions (1, 2) and (3, 6) average to (2, 4). -/
theorem mean_position_is_arithmetic_mean_witness :
    ((⟨false, 0⟩ : MeanPosition).combine (fun q => q)
        [Position2D.valid ⟨1, 2⟩ ⟨0, 0⟩ ⟨1, 0⟩, Position2D.valid ⟨3, 6⟩ ⟨0, 0⟩ ⟨1, 0⟩]
        (Position2D.valid ⟨0, 0⟩ ⟨0, 0⟩ ⟨0, 0⟩)).position =
      Vec2.scale (1 / (([Position2D.valid ⟨1, 2⟩ ⟨0, 0⟩ ⟨1, 0⟩,
            Position2D.valid ⟨3, 6⟩ ⟨0, 0⟩ ⟨1, 0⟩] : List Position2D).length : Rat))
        (Vec2.sum (([Position2D.valid ⟨1, 2⟩ ⟨0, 0⟩ ⟨1, 0⟩,
            Position2D.valid ⟨3, 6⟩ ⟨0, 0⟩ ⟨1, 0⟩] : List Position2D).map
          (fun p => p.position))) :=
  (mean_position_is_arithmetic_mean (fun q => q) ⟨false, 0⟩
    [Position2D.valid ⟨1, 2⟩ ⟨0, 0⟩ ⟨1, 0⟩, Position2D.valid ⟨3, 6⟩ ⟨0, 0⟩ ⟨1, 0⟩]
    (Position2D.valid ⟨0, 0⟩ ⟨0, 0⟩ ⟨0, 0⟩) (by simp)).1 (by decide)

/-- C18, at the failing inputs: in the averaged-heading mode two sources with
the opposite headings (1, 0) and (-1, 0), and in the heading-anchor mode a
single source (which is its own anchor), sum to the zero heading; `combine`
reports `heading_valid` and divides the zero vector by its magnitude `sqrt 0`,
so the combined heading does not have norm 1, whatever `sqrt` computes. -/
theorem mean_position_heading_not_unit (sqrt : Rat → Rat) :
    (((⟨false, 0⟩ : MeanPosition).accumulate
        [Position2D.valid ⟨0, 0⟩ ⟨0, 0⟩ ⟨1, 0⟩, Position2D.valid ⟨0, 0⟩ ⟨0, 0⟩ ⟨-1, 0⟩]
        (Position2D.valid ⟨0, 0⟩ ⟨0, 0⟩ ⟨0, 0⟩)).heading = ⟨0, 0⟩ ∧
      ((⟨false, 0⟩ : MeanPosition).combine sqrt
        [Position2D.valid ⟨0, 0⟩ ⟨0, 0⟩ ⟨1, 0⟩, Position2D.valid ⟨0, 0⟩ ⟨0, 0⟩ ⟨-1, 0⟩]
        (Position2D.valid ⟨0, 0⟩ ⟨0, 0⟩ ⟨0, 0⟩)).heading_valid = true ∧
      ((⟨false, 0⟩ : MeanPosition).combine sqrt
        [Position2D.valid ⟨0, 0⟩ ⟨0, 0⟩ ⟨1, 0⟩, Position2D.valid ⟨0, 0⟩ ⟨0, 0⟩ ⟨-1, 0⟩]
        (Position2D.valid ⟨0, 0⟩ ⟨0, 0⟩ ⟨0, 0⟩)).heading.x ^ 2 +
      ((⟨false, 0⟩ : MeanPosition).combine sqrt
        [Position2D.valid ⟨0, 0⟩ ⟨0, 0⟩ ⟨1, 0⟩, Position2D.valid ⟨0, 0⟩ ⟨0, 0⟩ ⟨-1, 0⟩]
        (Position2D.valid ⟨0, 0⟩ ⟨0, 0⟩ ⟨0, 0⟩)).heading.y ^ 2 ≠ 1) ∧
    (((⟨true, 0⟩ : MeanPosition).accumulate [Position2D.valid ⟨3, 4⟩ ⟨0, 0⟩ ⟨1, 0⟩]
        (Position2D.valid ⟨0, 0⟩ ⟨0, 0⟩ ⟨0, 0⟩)).heading = ⟨0, 0⟩ ∧
      ((⟨true, 0⟩ : MeanPosition).combine sqrt [Position2D.valid ⟨3, 4⟩ ⟨0, 0⟩ ⟨1, 0⟩]
        (Position2D.valid ⟨0, 0⟩ ⟨0, 0⟩ ⟨0, 0⟩)).heading_valid = true ∧
      ((⟨true, 0⟩ : MeanPosition).combine sqrt [Position2D.valid ⟨3, 4⟩ ⟨0, 0⟩ ⟨1, 0⟩]
        (Position2D.valid ⟨0, 0⟩ ⟨0, 0⟩ ⟨0, 0⟩)).heading.x ^ 2 +
      ((⟨true, 0⟩ : MeanPosition).combine sqrt [Position2D.valid ⟨3, 4⟩ ⟨0, 0⟩ ⟨1, 0⟩]
        (Position2D.valid ⟨0, 0⟩ ⟨0, 0⟩ ⟨0, 0⟩)).heading.y ^ 2 ≠ 1) := by
  have h1 : ((⟨false, 0⟩ : MeanPosition).accumulate
      [Position2D.valid ⟨0, 0⟩ ⟨0, 0⟩ ⟨1, 0⟩, Position2D.valid ⟨0, 0⟩ ⟨0, 0⟩ ⟨-1, 0⟩]
      (Position2D.valid ⟨0, 0⟩ ⟨0, 0⟩ ⟨0, 0⟩)).heading = ⟨0, 0⟩ := by
    simp [MeanPosition.accumulate, MeanPosition.average, Position2D.valid, Vec2.add]
  have v1 : ((⟨false, 0⟩ : MeanPosition).accumulate
      [Position2D.valid ⟨0, 0⟩ ⟨0, 0⟩ ⟨1, 0⟩, Position2D.valid ⟨0, 0⟩ ⟨0, 0⟩ ⟨-1, 0⟩]
      (Position2D.valid ⟨0, 0⟩ ⟨0, 0⟩ ⟨0, 0⟩)).heading_valid = true := by
    simp [MeanPosition.accumulate, MeanPosition.average, Position2D.valid]
  have h2 : ((⟨true, 0⟩ : MeanPosition).accumulate [Position2D.valid ⟨3, 4⟩ ⟨0, 0⟩ ⟨1, 0⟩]
      (Position2D.valid ⟨0, 0⟩ ⟨0, 0⟩ ⟨0, 0⟩)).heading = ⟨0, 0⟩ := by
    simp [MeanPosition.accumulate, MeanPosition.average, MeanPosition.anchor,
      Position2D.valid, Vec2.add, Vec2.sub]
  have v2 : ((⟨true, 0⟩ : MeanPosition).accumulate [Position2D.valid ⟨3, 4⟩ ⟨0, 0⟩ ⟨1, 0⟩]
      (Position2D.valid ⟨0, 0⟩ ⟨0, 0⟩ ⟨0, 0⟩)).heading_valid = true := by
    simp [MeanPosition.accumulate, MeanPosition.average, Position2D.valid]
  refine ⟨⟨h1, ?_, ?_⟩, ⟨h2, ?_, ?_⟩⟩
  · simp only [MeanPosition.combine, v1, if_true]
  · simp only [MeanPosition.combine, v1, if_true, h1, Vec2.div]
    norm_num
  · simp only [MeanPosition.combine, v2, if_true]
  · simp only [MeanPosition.combine, v2, if_true, h2, Vec2.div]
    norm_num

/-! ### Region filter -/

/-- Copying an id made of `n` letters stores `n + 1` bytes. -/
theorem strcpy_region_replicate (n : Nat) :
    (strcpy_region (String.mk (List.replicate n 'r'))).2 = n + 1 := by
  have htake : ∀ k : Nat,
      (List.replicate k 'r' ++ [Char.ofNat 0]).takeWhile (fun ch => ch != Char.ofNat 0) =
        List.replicate k 'r' := by
    intro k
    induction k with
    | zero => decide
    | succ k ih =>
      rw [List.replicate_succ, List.cons_append, List.takeWhile_cons_of_pos (by decide), ih]
  have hlist : (String.mk (List.replicate n 'r')).toList = List.replicate n 'r' := rfl
  simp only [strcpy_region, hlist, htake, List.length_replicate]

/-- C20, at the failing input: whatever the bound `REGION_LEN` of the region
field is, a configuration whose region key has `REGION_LEN` letters is accepted
by `configure`, and for a valid position inside that region `filter` stores
`REGION_LEN + 1` bytes, one more than the field holds. -/
theorem region_filter_label_exceeds_bound (REGION_LEN : Nat) (toPoint : Vec2 → Int × Int) :
    ∃ f, RegionFilter2D.configure toPoint ⟨[], []⟩
        [(String.mk (List.replicate REGION_LEN 'r'), [[0, 0], [0, 10], [10, 0]])] =
          Except.ok f ∧
      (f.filter toPoint (fun _ _ => 1)
        (Position2D.valid ⟨1, 1⟩ ⟨0, 0⟩ ⟨1, 0⟩)).bytes_written = REGION_LEN + 1 ∧
      (f.filter toPoint (fun _ _ => 1)
        (Position2D.valid ⟨1, 1⟩ ⟨0, 0⟩ ⟨1, 0⟩)).position.region_valid = true ∧
      REGION_LEN < (f.filter toPoint (fun _ _ => 1)
        (Position2D.valid ⟨1, 1⟩ ⟨0, 0⟩ ⟨1, 0⟩)).bytes_written := by
  refine ⟨⟨[String.mk (List.replicate REGION_LEN 'r')],
    [[toPoint ⟨0, 0⟩, toPoint ⟨0, 10⟩, toPoint ⟨10, 0⟩]]⟩, ?_, ?_⟩
  · simp [RegionFilter2D.configure, RegionFilter2D.readContour]
  · have hb : (RegionFilter2D.filter toPoint (fun _ _ => 1)
        ⟨[String.mk (List.replicate REGION_LEN 'r')],
          [[toPoint ⟨0, 0⟩, toPoint ⟨0, 10⟩, toPoint ⟨10, 0⟩]]⟩
        (Position2D.valid ⟨1, 1⟩ ⟨0, 0⟩ ⟨1, 0⟩)) =
        ⟨{ Position2D.valid ⟨1, 1⟩ ⟨0, 0⟩ ⟨1, 0⟩ with
            region_valid := true
            region := (strcpy_region (String.mk (List.replicate REGION_LEN 'r'))).1 },
          (strcpy_region (String.mk (List.replicate REGION_LEN 'r'))).2⟩ := by
      simp [RegionFilter2D.filter, RegionFilter2D.findRegion, Position2D.valid]
    rw [hb]
    simp only [strcpy_region_replicate]
    exact ⟨trivial, trivial, Nat.lt_succ_self _⟩

/-! ### Validity flags of the combiner -/

/-- One round of the averaging loop: each flag stays set only if the source has
the matching flag; in the heading-anchor mode the heading flag follows the
position flag as it stands after this round. -/
theorem MeanPosition.average_flags (m : MeanPosition) (sources : List Position2D) (k : Rat)
    (c pos : Position2D) :
    (m.average sources k c pos).position_valid = (c.position_valid && pos.position_valid) ∧
    (m.average sources k c pos).velocity_valid = (c.velocity_valid && pos.velocity_valid) ∧
    (m.generate_heading_ = false →
      (m.average sources k c pos).heading_valid = (c.heading_valid && pos.heading_valid)) ∧
    (m.generate_heading_ = true →
      (m.average sources k c pos).heading_valid =
        (c.heading_valid && (c.position_valid && pos.position_valid))) := by
  unfold MeanPosition.average
  cases hg : m.generate_heading_ <;> cases hp : pos.position_valid <;>
    cases hv : pos.velocity_valid <;> cases hh : pos.heading_valid <;>
    cases hcp : c.position_valid <;> cases hch : c.heading_valid <;>
    simp [hcp, hch]

/-- The averaging loop keeps the position flag set exactly when it was set and
every source has a valid position. -/
theorem MeanPosition.foldl_position_valid (m : MeanPosition) (sources : List Position2D)
    (k : Rat) (l : List Position2D) :
    ∀ c : Position2D, (l.foldl (m.average sources k) c).position_valid =
      (c.position_valid && l.all (fun p => p.position_valid)) := by
  induction l with
  | nil => intro c; simp
  | cons p l ih =>
    intro c
    rw [List.foldl_cons, ih, (MeanPosition.average_flags m sources k c p).1, List.all_cons,
      Bool.and_assoc]

/-- The averaging loop keeps the velocity flag set exactly when it was set and
every source has a valid velocity. -/
theorem MeanPosition.foldl_velocity_valid (m : MeanPosition) (sources : List Position2D)
    (k : Rat) (l : List Position2D) :
    ∀ c : Position2D, (l.foldl (m.average sources k) c).velocity_valid =
      (c.velocity_valid && l.all (fun p => p.velocity_valid)) := by
  induction l with
  | nil => intro c; simp
  | cons p l ih =>
    intro c
    rw [List.foldl_cons, ih, (MeanPosition.average_flags m sources k c p).2.1, List.all_cons,
      Bool.and_assoc]

/-- In the averaged-heading mode the loop keeps the heading flag set exactly
when it was set and every source has a valid heading. -/
theorem MeanPosition.foldl_heading_valid_averaged (m : MeanPosition)
    (sources : List Position2D) (k : Rat) (hg : m.generate_heading_ = false)
    (l : List Position2D) :
    ∀ c : Position2D, (l.foldl (m.average sources k) c).heading_valid =
      (c.heading_valid && l.all (fun p => p.heading_valid)) := by
  induction l with
  | nil => intro c; simp
  | cons p l ih =>
    intro c
    rw [List.foldl_cons, ih, (MeanPosition.average_flags m sources k c p).2.2.1 hg,
      List.all_cons, Bool.and_assoc]

/-- In the heading-anchor mode, from a record whose heading flag is set only
with its position flag, the loop keeps the heading flag set exactly when it was
set and every source has a valid position. -/
theorem MeanPosition.foldl_heading_valid_anchor (m : MeanPosition)
    (sources : List Position2D) (k : Rat) (hg : m.generate_heading_ = true)
    (l : List Position2D) :
    ∀ c : Position2D, (c.heading_valid = true → c.position_valid = true) →
      (l.foldl (m.average sources k) c).heading_valid =
        (c.heading_valid && l.all (fun p => p.position_valid)) := by
  induction l with
  | nil => intro c _; simp
  | cons p l ih =>
    intro c hc
    have hstep := MeanPosition.average_flags m sources k c p
    have hh := hstep.2.2.2 hg
    have hpos := hstep.1
    have hnext : (m.average sources k c p).heading_valid = true →
        (m.average sources k c p).position_valid = true := by
      rw [hh, hpos]
      intro h
      simp only [Bool.and_eq_true] at h ⊢
      exact h.2
    rw [List.foldl_cons, ih _ hnext, hh, List.all_cons]
    cases hch : c.heading_valid
    · simp
    · simp [hc hch]

/-- The renormalization of the heading leaves the three flags as the averaging
loop set them. -/
theorem MeanPosition.combine_flags (sqrt : Rat → Rat) (m : MeanPosition)
    (sources : List Position2D) (combined : Position2D) :
    (m.combine sqrt sources combined).flags = (m.accumulate sources combined).flags := by
  by_cases h : (m.accumulate sources combined).heading_valid = true <;>
    simp [MeanPosition.combine, Position2D.flags, h]

/-- The flags `combine` reports, as conjunctions over the sources. -/
theorem MeanPosition.combine_flags_eq (sqrt : Rat → Rat) (m : MeanPosition)
    (sources : List Position2D) (combined : Position2D) :
    (m.combine sqrt sources combined).flags =
      (sources.all (fun p => p.position_valid), sources.all (fun p => p.velocity_valid),
        if m.generate_heading_ then sources.all (fun p => p.position_valid)
        else sources.all (fun p => p.heading_valid)) := by
  rw [MeanPosition.combine_flags]
  unfold MeanPosition.accumulate Position2D.flags
  rw [MeanPosition.foldl_position_valid, MeanPosition.foldl_velocity_valid]
  cases hg : m.generate_heading_
  · rw [MeanPosition.foldl_heading_valid_averaged m sources _ hg]
    simp
  · rw [MeanPosition.foldl_heading_valid_anchor m sources _ hg _ _ (fun _ => rfl)]
    simp

/-- A conjunction over a list does not depend on the order of the list. -/
theorem all_eq_of_perm {α : Type} (p : α → Bool) {l l' : List α} (h : l.Perm l') :
    l.all p = l'.all p := by
  rw [Bool.eq_iff_iff, List.all_eq_true, List.all_eq_true]
  exact ⟨fun hl x hx => hl x (h.mem_iff.2 hx), fun hl x hx => hl x (h.mem_iff.1 hx)⟩

/-- C21: for every list of sources `combine` sets `position_valid` iff every
source has `position_valid`, `velocity_valid` iff every source has
`velocity_valid`, and `heading_valid` iff every source has `heading_valid` in
the averaged-heading mode and iff every source has `position_valid` in the
heading-anchor mode; the three flags are the same for every reordering of the
sources. -/
theorem mean_position_validity_flags (sqrt : Rat → Rat) (m : MeanPosition)
    (sources : List Position2D) (combined : Position2D) :
    ((m.combine sqrt sources combined).position_valid = true ↔
      ∀ p ∈ sources, p.position_valid = true) ∧
    ((m.combine sqrt sources combined).velocity_valid = true ↔
      ∀ p ∈ sources, p.velocity_valid = true) ∧
    (m.generate_heading_ = false →
      ((m.combine sqrt sources combined).heading_valid = true ↔
        ∀ p ∈ sources, p.heading_valid = true)) ∧
    (m.generate_heading_ = true →
      ((m.combine sqrt sources combined).heading_valid = true ↔
        ∀ p ∈ sources, p.position_valid = true)) ∧
    (∀ reordered : List Position2D, sources.Perm reordered →
      (m.combine sqrt reordered combined).flags = (m.combine sqrt sources combined).flags) := by
  have hflags := MeanPosition.combine_flags_eq sqrt m sources combined
  simp only [Position2D.flags, Prod.mk.injEq] at hflags
  obtain ⟨hp, hv, hh⟩ := hflags
  refine ⟨?_, ?_, fun hg => ?_, fun hg => ?_, fun reordered hperm => ?_⟩
  · rw [hp, List.all_eq_true]
  · rw [hv, List.all_eq_true]
  · rw [hh, hg]
    simp only [Bool.false_eq_true, if_false, List.all_eq_true]
  · rw [hh, hg]
    simp only [if_true, List.all_eq_true]
  · rw [MeanPosition.combine_flags_eq, MeanPosition.combine_flags_eq,
      all_eq_of_perm (fun p => p.position_valid) hperm,
      all_eq_of_perm (fun p => p.velocity_valid) hperm,
      all_eq_of_perm (fun p => p.heading_valid) hperm]

/-- C21 at a concrete input: in the heading-anchor mode, of two sources the
second has no valid position (its heading and velocity are valid); the combined
record has no valid position and no valid heading, its velocity is valid, and
swapping the sources gives the same flags. -/
theorem mean_position_validity_flags_witness :
    ((⟨true, 0⟩ : MeanPosition).combine (fun q => q)
        [Position2D.valid ⟨1, 2⟩ ⟨0, 0⟩ ⟨1, 0⟩,
          { Position2D.valid ⟨3, 6⟩ ⟨0, 0⟩ ⟨1, 0⟩ with position_valid := false }]
        (Position2D.valid ⟨0, 0⟩ ⟨0, 0⟩ ⟨0, 0⟩)).flags = (false, true, false) ∧
    ((⟨true, 0⟩ : MeanPosition).combine (fun q => q)
        [{ Position2D.valid ⟨3, 6⟩ ⟨0, 0⟩ ⟨1, 0⟩ with position_valid := false },
          Position2D.valid ⟨1, 2⟩ ⟨0, 0⟩ ⟨1, 0⟩]
        (Position2D.valid ⟨0, 0⟩ ⟨0, 0⟩ ⟨0, 0⟩)).flags =
      ((⟨true, 0⟩ : MeanPosition).combine (fun q => q)
        [Position2D.valid ⟨1, 2⟩ ⟨0, 0⟩ ⟨1, 0⟩,
          { Position2D.valid ⟨3, 6⟩ ⟨0, 0⟩ ⟨1, 0⟩ with position_valid := false }]
        (Position2D.valid ⟨0, 0⟩ ⟨0, 0⟩ ⟨0, 0⟩)).flags :=
  ⟨by
      rw [MeanPosition.combine_flags_eq]
      decide,
    (mean_position_validity_flags (fun q => q) ⟨true, 0⟩
      [Position2D.valid ⟨1, 2⟩ ⟨0, 0⟩ ⟨1, 0⟩,
        { Position2D.valid ⟨3, 6⟩ ⟨0, 0⟩ ⟨1, 0⟩ with position_valid := false }]
      (Position2D.valid ⟨0, 0⟩ ⟨0, 0⟩ ⟨0, 0⟩)).2.2.2.2 _ (List.Perm.swap _ _ [])⟩

end Oat
